import Mathlib

/-!
# Gatekeeper: a shallow embedding of the enforcement pipeline and abuse control loop

This file embeds the parts of the Gatekeeper API gateway needed to settle the
frozen claims: the fixed-window rate-limit engine (`core/rate_limit.py`), the
IP-blocklist middleware (`core/ip_blocklist.py`), the usage-logging middleware
(`core/usage_logging.py`), the client credential resolver
(`deps/client_auth.py`), the admin authentication dependency
(`deps/admin_auth.py`), and the admin surface (`api/admin.py`): key lifecycle,
time-range analytics, block operations, the blocks report and the auto-block
controller.

Conventions of the embedding:
* Python `int` is `Int`; epoch timestamps are seconds as `Int`.
* The Redis client is created with `decode_responses=True`
  (`deps/redis.py`), so every raw value read from Redis is a `String`
  (never `bytes`); raw values are modelled as `String` and stored-or-absent
  as `Option String`.
* `json.loads` from the Python standard library is not repository code; it is
  modelled as an explicit parameter `loads : String → Option JVal` threaded
  into every definition that calls it, where `none` models `json.loads`
  raising an exception.  Theorems therefore hold for every possible behaviour
  of the JSON decoder, and closed witnesses instantiate `loads` with finite
  tables that agree with the real `json.loads` on the strings they mention.
* Fallible handlers return `Except Int α` where the error is the HTTP status
  of the raised `HTTPException`.
-/

/-- A decoded JSON value, as returned by Python's `json.loads`. -/
inductive JVal where
  | null : JVal
  | bool : Bool → JVal
  | num : Int → JVal
  | str : String → JVal
  | arr : List JVal → JVal
  | obj : List (String × JVal) → JVal

/-- A Python `dict` holding decoded JSON values (insertion-ordered pairs). -/
abbrev JDict := List (String × JVal)

/-- `d.get(k)` on a Python dict: `None` when the key is absent. -/
def jgetOpt (d : JDict) (k : String) : Option JVal :=
  (d.find? (fun p => p.1 == k)).map (·.2)

/-- `d.get(k)` where an absent key yields JSON `null` (Python `None`). -/
def jget (d : JDict) (k : String) : JVal :=
  (jgetOpt d k).getD JVal.null

/-- Python truthiness of a decoded JSON value (`None`, `False`, `0`, `""`,
`[]` and `` \x7b\x7d `` are falsy). -/
def jtruthy : JVal → Bool
  | JVal.null => false
  | JVal.bool b => b
  | JVal.num n => n != 0
  | JVal.str s => s != ""
  | JVal.arr xs => !xs.isEmpty
  | JVal.obj kvs => !kvs.isEmpty

/-- `x or y` on JSON-valued Python expressions. -/
def jor (x y : JVal) : JVal := if jtruthy x then x else y

/-- Replace or add a binding in an association list (leftmost lookup wins,
so insert at the head after dropping stale bindings). -/
def upsert {α : Type} [BEq α] (k : α) {β : Type} (v : β)
    (l : List (α × β)) : List (α × β) :=
  (k, v) :: l.filter (fun p => !(p.1 == k))

/--
The key-value store (Redis) state.  The four key namespaces the gateway uses
(`rl:*` integer counters, `blk:ip:*` string values, the `blk:index` sorted
set and the `blk:events` list) are disjoint, so the state carries them as
separate fields; `ttl` records expirations for `strings` and `counters` keys.
-/
structure RedisState where
  /-- Keys written with `SET` and read with `GET` (the `blk:ip:<ip>` keys). -/
  strings : List (String × String)
  /-- Keys managed by `INCR` (the `rl:<id>:<window_start>` counters). -/
  counters : List (String × Int)
  /-- Remaining TTL in seconds for keys that have one. -/
  ttl : List (String × Int)
  /-- The `blk:index` sorted set: member IP ↦ score (expiry epoch). -/
  zindex : List (String × Int)
  /-- The `blk:events` list, newest element first. -/
  events : List String
deriving Repr, DecidableEq

def RedisState.empty : RedisState :=
  ⟨[], [], [], [], []⟩

/-- `GET key` (string keys only; the gateway never `GET`s a counter). -/
def RedisState.get (st : RedisState) (key : String) : Option String :=
  (st.strings.find? (fun p => p.1 == key)).map (·.2)

/-- `TTL key`: `-2` when the key does not exist, `-1` when it has no
expiration, otherwise the remaining seconds. -/
def RedisState.ttlOf (st : RedisState) (key : String) : Int :=
  if (st.strings.find? (fun p => p.1 == key)).isSome
      || (st.counters.find? (fun p => p.1 == key)).isSome then
    ((st.ttl.find? (fun p => p.1 == key)).map (·.2)).getD (-1)
  else
    -2

/-- `INCR key`: atomic increment, returning the post-increment value. -/
def RedisState.incr (st : RedisState) (key : String) : Int × RedisState :=
  let old := ((st.counters.find? (fun p => p.1 == key)).map (·.2)).getD 0
  let cnt := old + 1
  (cnt, { st with counters := upsert key cnt st.counters })

/-- `EXPIRE key seconds`. -/
def RedisState.expire (st : RedisState) (key : String) (seconds : Int) :
    RedisState :=
  { st with ttl := upsert key seconds st.ttl }

/-- `SET key value EX seconds`. -/
def RedisState.setex (st : RedisState) (key value : String) (seconds : Int) :
    RedisState :=
  { st with
    strings := upsert key value st.strings
    ttl := upsert key seconds st.ttl }

/-- `DEL key` on a string key, returning how many keys were removed. -/
def RedisState.del (st : RedisState) (key : String) : Int × RedisState :=
  let existed := (st.strings.find? (fun p => p.1 == key)).isSome
  ((if existed then 1 else 0),
   { st with
     strings := st.strings.filter (fun p => !(p.1 == key))
     ttl := st.ttl.filter (fun p => !(p.1 == key)) })

/-- `ZADD blk:index score member`. -/
def RedisState.zadd (st : RedisState) (member : String) (score : Int) :
    RedisState :=
  { st with zindex := upsert member score st.zindex }

/-- `ZSCORE blk:index member`. -/
def RedisState.zscore (st : RedisState) (member : String) : Option Int :=
  (st.zindex.find? (fun p => p.1 == member)).map (·.2)

/-- `ZREM blk:index members…`, returning how many members were removed. -/
def RedisState.zrem (st : RedisState) (members : List String) :
    Int × RedisState :=
  let removed := st.zindex.filter (fun p => members.contains p.1)
  ((removed.length : Int),
   { st with zindex := st.zindex.filter (fun p => !members.contains p.1) })

/-- `ZRANGEBYSCORE blk:index min max`: the members whose score lies in
`[min, max]` (Redis returns them score-ascending; the relative order does not
matter to any claim, so the index order is kept). -/
def RedisState.zrangebyscore (st : RedisState) (min max : Int) :
    List String :=
  (st.zindex.filter (fun p => min ≤ p.2 && p.2 ≤ max)).map (·.1)

/-- `LPUSH blk:events payload` followed by `LTRIM blk:events 0 (cap-1)`,
as performed by `_push_block_event` in `api/admin.py`. -/
def RedisState.lpushTrim (st : RedisState) (payload : String) (cap : Nat) :
    RedisState :=
  { st with events := (payload :: st.events).take cap }

/-! ## Rate-limit engine — `core/rate_limit.py` -/

/-- The result record returned by `fixed_window_limit`. -/
structure RateLimitResult where
  allowed : Bool
  limit : Int
  remaining : Int
  reset_epoch : Int
deriving Repr, DecidableEq

/--
`fixed_window_limit(r, key, limit, window_seconds)` from
`core/rate_limit.py`, with `now = int(time.time())` passed explicitly:
compute the window start, `INCR` the window-scoped counter, set the TTL
only when this call created the key, and report the admission decision.
-/
def fixed_window_limit (st : RedisState) (key : String) (limit : Int)
    (window_seconds : Int) (now : Int) : RateLimitResult × RedisState :=
  let window_start := now - now % window_seconds
  let redis_key := "rl:" ++ key ++ ":" ++ toString window_start
  let (count, st₁) := st.incr redis_key
  let st₂ := if count = 1 then st₁.expire redis_key window_seconds else st₁
  let remaining := max 0 (limit - count)
  let reset_epoch := window_start + window_seconds
  (⟨decide (count ≤ limit), limit, remaining, reset_epoch⟩, st₂)

/-! ## Block-entry value parsing — `core/ip_blocklist.py` and `api/admin.py` -/

/-- The legacy interpretation of a plain-string block value. -/
def legacy_block_meta (raw : String) : JDict :=
  [("reason", JVal.str raw), ("reason_code", JVal.str "manual")]

/-- Python `s.startswith(pre)`, modelled over the character list so that
closed instances evaluate inside the kernel. -/
def pyStartsWith (s pre : String) : Bool :=
  pre.data.isPrefixOf s.data

/-- Python `s.removeprefix(pre)`: drop `pre` when it is a prefix, else
return `s` unchanged. -/
def pyRemovePrefix (s pre : String) : String :=
  if pre.data.isPrefixOf s.data then String.mk (s.data.drop pre.data.length)
  else s

/-- Python `s.strip()`: remove leading and trailing whitespace (the ASCII
whitespace Lean's `Char.isWhitespace` recognizes; the credential plaintexts
in scope are URL-safe base64, so wider Unicode stripping never differs). -/
def pyStrip (s : String) : String :=
  String.mk (((s.data.dropWhile Char.isWhitespace).reverse.dropWhile
    Char.isWhitespace).reverse)

/--
`_safe_json_loads(raw)` from `core/ip_blocklist.py`: `None` maps to an empty
dict; a string is `json.loads`-decoded, keeping the result only when it is a
dict; a decode failure falls back to the legacy plain-string interpretation.
(The `bytes` branch is dead: the Redis client decodes responses, so `raw` is
always `str` or `None`.)
-/
def safe_json_loads (loads : String → Option JVal) :
    Option String → JDict
  | none => []
  | some raw =>
    match loads raw with
    | some (JVal.obj kvs) => kvs
    | some _ => []
    | none => legacy_block_meta raw

/--
`_parse_block_value(raw)` from `api/admin.py`: `None` maps to an empty dict;
a string starting with a brace is `json.loads`-decoded (keeping the result
only when it is a dict, and falling back to the legacy interpretation when
decoding raises); any other string is taken as a legacy plain-string reason.
-/
def parse_block_value (loads : String → Option JVal) :
    Option String → JDict
  | none => []
  | some raw =>
    if pyStartsWith raw "\x7b" then
      match loads raw with
      | some (JVal.obj kvs) => kvs
      | some _ => []
      | none => legacy_block_meta raw
    else
      legacy_block_meta raw

/-- The closed set of valid reason codes (`ALLOWED_REASON_CODES`). -/
def ALLOWED_REASON_CODES : List String :=
  ["manual", "operator_action", "auto_unauth_401_surge", "one_click_suspects"]

/--
`_make_block_payload(...)` from `api/admin.py`: normalize the reason code to
`manual` when it is outside the closed set, then `json.dumps` the payload.
The dump is reproduced literally for the default separators; JSON escaping
of special characters inside `reason` is not modelled (no input in this file
contains any).
-/
def make_block_payload (block_id reason_code reason : String)
    (created_at_epoch expires_at_epoch : Int) : String :=
  let rc := if ALLOWED_REASON_CODES.contains reason_code
            then reason_code else "manual"
  "\x7b\"block_id\": \"" ++ block_id ++ "\", \"reason_code\": \"" ++ rc ++
    "\", \"reason\": \"" ++ reason ++ "\", \"created_at_epoch\": " ++
    toString created_at_epoch ++ ", \"expires_at_epoch\": " ++
    toString expires_at_epoch ++ "\x7d"

/-! ## HTTP request/response model -/

/-- An HTTP response as the gateway produces it: status code, JSON body and
response headers. -/
structure HttpResp where
  status : Int
  body : JDict
  headers : List (String × String)

/-- Request-scoped state (`request.state`). -/
structure ReqState where
  tenant_id : Option String
  api_key_id : Option String
  request_id : Option String
deriving Repr, DecidableEq

/-- An inbound HTTP request as the middleware sees it. -/
structure HttpReq where
  method : String
  path : String
  /-- `request.client.host`, absent when the transport has no peer. -/
  client : Option String
  /-- The `Authorization` header. -/
  authorization : Option String
  /-- The `X-Request-Id` header. -/
  x_request_id : Option String
  /-- The `User-Agent` header. -/
  user_agent : Option String
  state : ReqState
deriving Repr, DecidableEq

/-! ## IP blocklist middleware — `core/ip_blocklist.py` -/

/-- The prefix of block keys (`BLOCK_IP_PREFIX`). -/
def BLOCK_IP_PREFIX : String := "blk:ip:"

/--
`IPBlocklistMiddleware.dispatch`: when the client IP is known and
`blk:ip:<ip>` holds a value, answer 403 with the block payload and a
`Retry-After` header; otherwise pass through (`none` models
`await call_next(request)`).
-/
def ip_blocklist_dispatch (loads : String → Option JVal) (req : HttpReq)
    (st : RedisState) : Option HttpResp :=
  match req.client with
  | none => none
  | some client_ip =>
    let key := BLOCK_IP_PREFIX ++ client_ip
    match st.get key with
    | none => none
    | some raw =>
      let meta := safe_json_loads loads (some raw)
      let ttl := st.ttlOf key
      let retry_after : Option Int := if 0 < ttl then some ttl else none
      let payload : JDict :=
        [("detail", JVal.str "IP temporarily blocked"),
         ("client_ip", JVal.str client_ip),
         ("block_id", jget meta "block_id"),
         ("reason_code", jor (jget meta "reason_code") (JVal.str "manual")),
         ("reason", jget meta "reason"),
         ("retry_after_seconds",
            (retry_after.map JVal.num).getD JVal.null),
         ("expires_at_epoch", jget meta "expires_at_epoch")]
      let headers := match retry_after with
        | some ra => [("Retry-After", toString ra)]
        | none => []
      some ⟨403, payload, headers⟩

/-! ## Admin authentication — `deps/admin_auth.py` -/

/--
Process configuration consumed by the embedded handlers.  Modelled from the
spec: `config.py` in the source tree lacks the `admin_token`,
`rate_limit_requests`, `rate_limit_window_seconds`, `enable_auto_block` and
`allow_block_localhost` fields that `deps/admin_auth.py`,
`deps/client_auth.py` and `api/admin.py` read from `settings`; per spec §6
they are environment-configured values (`ADMIN_TOKEN`,
`RATE_LIMIT_REQUESTS`, `RATE_LIMIT_WINDOW_SECONDS`, `ENABLE_AUTO_BLOCK`,
`ALLOW_BLOCK_LOCALHOST`).
-/
structure Settings where
  admin_token : String
  rate_limit_requests : Int
  rate_limit_window_seconds : Int
  enable_auto_block : Bool
  allow_block_localhost : Bool
deriving Repr, DecidableEq

/--
`require_admin(x_admin_token)` from `deps/admin_auth.py`: raise 401 when the
header is absent, empty (Python falsiness of `str`), or different from the
configured token; otherwise pass.
-/
def require_admin (x_admin_token : Option String) (cfg : Settings) :
    Except Int Unit :=
  match x_admin_token with
  | none => Except.error 401
  | some t =>
    if t = "" then Except.error 401
    else if t ≠ cfg.admin_token then Except.error 401
    else Except.ok ()

/-! ## Credential store — `models/api_key.py`, `models/tenant.py`,
`core/keys.py` -/

/-- A row of the `tenants` table. -/
structure TenantRec where
  id : String
  name : String
  created_at : Int
deriving Repr, DecidableEq

/-- A row of the `api_keys` table.  `id` and `tenant_id` are UUIDs rendered
as strings; `revoked_at` is the nullable revocation timestamp. -/
structure ApiKeyRec where
  id : String
  tenant_id : String
  key_hash : String
  key_prefix : String
  rate_limit : Int
  rate_window : Int
  revoked_at : Option Int
  created_at : Int
deriving Repr, DecidableEq

/-- `key_prefix(plain)` from `core/keys.py`: the first 8 characters. -/
def keyPrefixOf (plain : String) : String := plain.take 8

/-! Throughout, `hashKey : String → String` is the embedding's parameter for
`hash_key` from `core/keys.py` (hex-lowercase SHA-256 of the UTF-8
plaintext); SHA-256 itself is left uninterpreted. -/

/-! ## Admin key lifecycle — `api/admin.py` -/

/-- The tier table `TIERS` from `api/admin.py`: tier ↦ (rate_limit,
rate_window). -/
def TIERS : List (String × Int × Int) :=
  [("free", 10, 60), ("pro", 120, 60), ("enterprise", 600, 60)]

/--
`create_api_key(tenant_id)` from `api/admin.py`, with the generated UUID
`new_id` and the CSPRNG plaintext `plain` passed explicitly: 404 when the
tenant is unknown, 500 on a fingerprint collision, otherwise append the new
credential row (plaintext is returned, only the hash is stored).
-/
def create_api_key (hashKey : String → String) (tenant_id new_id plain : String)
    (now : Int) (tenants : List TenantRec) (db : List ApiKeyRec) :
    Except Int (String × String × String × String) × List ApiKeyRec :=
  if (tenants.find? (fun t => t.id == tenant_id)).isNone then
    (Except.error 404, db)
  else
    let hashed := hashKey plain
    if (db.find? (fun k => k.key_hash == hashed)).isSome then
      (Except.error 500, db)
    else
      (Except.ok (new_id, tenant_id, keyPrefixOf plain, plain),
       db ++ [⟨new_id, tenant_id, hashed, keyPrefixOf plain, 10, 60, none, now⟩])

/--
`revoke_api_key(key_id)` from `api/admin.py`: 404 when the key is unknown;
`already_revoked` (leaving the row untouched) when `revoked_at` is already
set; otherwise stamp `revoked_at := now`.  The success value is the
`status` string of the response body.
-/
def revoke_api_key (key_id : String) (now : Int) (db : List ApiKeyRec) :
    Except Int String × List ApiKeyRec :=
  match db.find? (fun k => k.id == key_id) with
  | none => (Except.error 404, db)
  | some api_key =>
    if api_key.revoked_at.isSome then
      (Except.ok "already_revoked", db)
    else
      (Except.ok "revoked",
       db.map (fun k => if k.id == key_id
                        then { k with revoked_at := some now } else k))

/--
`set_key_limits(key_id, payload)` from `api/admin.py`: update the
per-credential `(rate_limit, rate_window)`.  The Pydantic bounds
`1 ≤ rate_limit ≤ 1_000_000`, `1 ≤ rate_window ≤ 86_400` are enforced
before the handler runs and are hypotheses where a claim needs them.
-/
def set_key_limits (key_id : String) (rate_limit rate_window : Int)
    (db : List ApiKeyRec) : Except Int Unit × List ApiKeyRec :=
  match db.find? (fun k => k.id == key_id) with
  | none => (Except.error 404, db)
  | some _ =>
    (Except.ok (),
     db.map (fun k => if k.id == key_id
                      then { k with rate_limit := rate_limit,
                                    rate_window := rate_window } else k))

/--
`set_key_tier(key_id, payload)` from `api/admin.py`: 400 on an unknown tier,
404 on an unknown key, 409 when the key is revoked, otherwise install the
tier's limits.  The `.lower().strip()` normalization is applied to the tier
name first.
-/
def set_key_tier (key_id tier_raw : String) (db : List ApiKeyRec) :
    Except Int Unit × List ApiKeyRec :=
  let tier := tier_raw.toLower.trim
  match TIERS.find? (fun t => t.1 == tier) with
  | none => (Except.error 400, db)
  | some t =>
    match db.find? (fun k => k.id == key_id) with
    | none => (Except.error 404, db)
    | some api_key =>
      if api_key.revoked_at.isSome then
        (Except.error 409, db)
      else
        (Except.ok (),
         db.map (fun k => if k.id == key_id
                          then { k with rate_limit := t.2.1,
                                        rate_window := t.2.2 } else k))

/-- An admin operation acting on the `api_keys` table (the only writers of
credential rows in the repository). -/
inductive AdminOp where
  | create (tenant_id new_id plain : String) (now : Int)
  | revoke (key_id : String) (now : Int)
  | setLimits (key_id : String) (rate_limit rate_window : Int)
  | setTier (key_id tier : String)
deriving Repr, DecidableEq

/-- The `api_keys` table after running one admin operation. -/
def AdminOp.apply (hashKey : String → String) (tenants : List TenantRec) :
    AdminOp → List ApiKeyRec → List ApiKeyRec
  | AdminOp.create tenant_id new_id plain now, db =>
    (create_api_key hashKey tenant_id new_id plain now tenants db).2
  | AdminOp.revoke key_id now, db => (revoke_api_key key_id now db).2
  | AdminOp.setLimits key_id rl rw, db => (set_key_limits key_id rl rw db).2
  | AdminOp.setTier key_id tier, db => (set_key_tier key_id tier db).2

/-! ## Credential resolver — `deps/client_auth.py` -/

/-- The visible outcome of `require_client_key`: the handler outcome (an
`HTTPException` status/detail, or the resolved credential), the context
attached to `request.state`, and the rate-limit headers set on the response
under construction. -/
structure AuthResult where
  outcome : Except (Int × String) ApiKeyRec
  state_tenant_id : Option String
  state_api_key_id : Option String
  headers : List (String × String)

/--
`require_client_key` from `deps/client_auth.py`: reject a missing or
non-`Bearer` or blank credential with 401 (attaching null context); look up
the fingerprint; reject an unknown fingerprint with 401 (null context);
attach `(api_key_id, tenant_id)` to request state; reject a revoked
credential with 401 (context stays attached); consult the rate-limit engine
with the per-credential limits (falling back to the process defaults when a
stored value is falsy, i.e. `0`); set the `X-RateLimit-*` headers; reject
with 429 when not allowed; otherwise return the credential row.
-/
def require_client_key (hashKey : String → String) (cfg : Settings)
    (authorization : Option String) (db : List ApiKeyRec) (st : RedisState)
    (now : Int) : AuthResult × RedisState :=
  match authorization with
  | none => (⟨Except.error (401, "Missing API key"), none, none, []⟩, st)
  | some auth =>
    if !pyStartsWith auth "Bearer " then
      (⟨Except.error (401, "Missing API key"), none, none, []⟩, st)
    else
      let plain := pyStrip (pyRemovePrefix auth "Bearer ")
      if plain = "" then
        (⟨Except.error (401, "Missing API key"), none, none, []⟩, st)
      else
        let hashed := hashKey plain
        match db.find? (fun k => k.key_hash == hashed) with
        | none => (⟨Except.error (401, "Invalid API key"), none, none, []⟩, st)
        | some api_key =>
          let tenant := some api_key.tenant_id
          let kid := some api_key.id
          if api_key.revoked_at.isSome then
            (⟨Except.error (401, "Invalid API key"), tenant, kid, []⟩, st)
          else
            let lim := if api_key.rate_limit = 0
                       then cfg.rate_limit_requests else api_key.rate_limit
            let win := if api_key.rate_window = 0
                       then cfg.rate_limit_window_seconds else api_key.rate_window
            let rl := fixed_window_limit st api_key.id lim win now
            let hdrs :=
              [("X-RateLimit-Limit", toString rl.1.limit),
               ("X-RateLimit-Remaining", toString rl.1.remaining),
               ("X-RateLimit-Reset", toString rl.1.reset_epoch)]
            if !rl.1.allowed then
              (⟨Except.error (429, "Rate limit exceeded"), tenant, kid, hdrs⟩,
               rl.2)
            else
              (⟨Except.ok api_key, tenant, kid, hdrs⟩, rl.2)

/-! ## Usage-logging middleware — `core/usage_logging.py` -/

/-- A row of the `usage_events` table. -/
structure UsageEvent where
  tenant_id : Option String
  api_key_id : Option String
  method : String
  path : String
  status_code : Int
  latency_ms : Int
  ts : Int
  request_id : Option String
  client_ip : Option String
  user_agent : Option String
deriving Repr, DecidableEq

/-- Python truthiness of an optional identifier (`None` and the empty
string are falsy; the UUIDs the resolver attaches are always truthy). -/
def truthyId : Option String → Bool
  | none => false
  | some s => s != ""

/--
The row inserted by `UsageLoggingMiddleware.dispatch`
(`core/usage_logging.py`) for one request, or `none` when the middleware
inserts nothing.  The middleware runs in the `finally` of the handler call:
it reads whatever `tenant_id` / `api_key_id` landed on request state, and
only when **both** are attached and truthy does it build and commit a
`UsageEvent`; the `/health` path is skipped; a vanished response (handler
raised) is recorded as status 500.
-/
def usage_logging_row (req : HttpReq) (response_status : Option Int)
    (latency_ms now : Int) : Option UsageEvent :=
  let tenant_id := req.state.tenant_id
  let api_key_id := req.state.api_key_id
  if truthyId tenant_id && truthyId api_key_id then
    let status_code := response_status.getD 500
    if req.path = "/health" then
      none
    else
      some ⟨tenant_id, api_key_id, req.method, req.path, status_code,
            latency_ms, now, req.state.request_id, req.client,
            req.user_agent⟩
  else
    none

/-- The `usage_events` table after `UsageLoggingMiddleware.dispatch`
finishes one request: the committed row is appended, if there is one. -/
def usage_logging_dispatch (req : HttpReq) (response_status : Option Int)
    (latency_ms now : Int) (events : List UsageEvent) : List UsageEvent :=
  events ++ (usage_logging_row req response_status latency_ms now).toList

/-! ## Time-range analytics — `api/admin.py` -/

/-- A Python `datetime`: the instant it denotes, in epoch seconds, and
whether it is timezone-aware.  For a naive value, `epoch` is the instant the
value denotes once interpreted as UTC, which is exactly what
`replace(tzinfo=timezone.utc)` produces. -/
structure PyDatetime where
  epoch : Int
  aware : Bool
deriving Repr, DecidableEq

/-- `datetime.now(timezone.utc)` at epoch `now`. -/
def dtNow (now : Int) : PyDatetime := ⟨now, true⟩

/-- `dt - timedelta(hours=h)` (tzinfo is preserved). -/
def dtSubHours (dt : PyDatetime) (h : Int) : PyDatetime :=
  ⟨dt.epoch - h * 3600, dt.aware⟩

/--
`_resolve_timerange(from_ts, to_ts, default_hours)` from `api/admin.py`:
default a missing `to_ts` to now and a missing `from_ts` to
`to_ts - default_hours`; interpret naive bounds as UTC; raise 400 when the
normalized `from_ts` exceeds `to_ts`.
-/
def resolve_timerange (from_ts to_ts : Option PyDatetime) (now : Int)
    (default_hours : Int) : Except Int (PyDatetime × PyDatetime) :=
  let to₁ := to_ts.getD (dtNow now)
  let from₁ := from_ts.getD (dtSubHours to₁ default_hours)
  let from₂ := if from₁.aware then from₁ else ⟨from₁.epoch, true⟩
  let to₂ := if to₁.aware then to₁ else ⟨to₁.epoch, true⟩
  if from₂.epoch > to₂.epoch then Except.error 400
  else Except.ok (from₂, to₂)

/-- The distinct values of `f` over `l`, in first-occurrence order (the
grouping keys of a SQL `GROUP BY`). -/
def distinctBy {α β : Type} [BEq β] (f : α → β) (l : List α) : List β :=
  l.foldl (fun acc a => if acc.contains (f a) then acc else acc ++ [f a]) []

/-- `GROUP BY (f ·)` with `count(*)` per group. -/
def groupCounts {α β : Type} [BEq β] (f : α → β) (l : List α) :
    List (β × Nat) :=
  (distinctBy f l).map (fun b => (b, (l.filter (fun a => f a == b)).length))

/-- Stable insertion into a list kept descending by the measure `f`. -/
def insertDescBy {α : Type} (f : α → Nat) (a : α) : List α → List α
  | [] => [a]
  | b :: bs => if f b < f a then a :: b :: bs else b :: insertDescBy f a bs

/-- Sort descending by the measure `f` (an `ORDER BY … DESC`). -/
def sortDescBy {α : Type} (f : α → Nat) (l : List α) : List α :=
  l.foldr (insertDescBy f) []

/-- The rows of `usage_events` for one tenant inside a time range. -/
def tenantRows (tenant_id : String) (lo hi : Int) (events : List UsageEvent) :
    List UsageEvent :=
  events.filter (fun e =>
    e.tenant_id == some tenant_id && lo ≤ e.ts && e.ts ≤ hi)

/--
`usage_summary(tenant_id, from_ts, to_ts)` from `api/admin.py`.  Unlike the
`_resolve_timerange`-based endpoints, this endpoint defaults the bounds
inline (missing `to_ts` → now, missing `from_ts` → `to_ts - 24h`), performs
no naive/aware normalization and has no `from_ts > to_ts` check, so it never
raises 400.  The response carries the effective range and the per-status
counts (the floating-point `avg_latency_ms` presentation field is outside
the embedding).
-/
def usage_summary (tenant_id : String) (from_ts to_ts : Option PyDatetime)
    (now : Int) (events : List UsageEvent) :
    Except Int (PyDatetime × PyDatetime × List (Int × Nat)) :=
  let to₁ := to_ts.getD (dtNow now)
  let from₁ := from_ts.getD (dtSubHours to₁ 24)
  let rows := tenantRows tenant_id from₁.epoch to₁.epoch events
  Except.ok (from₁, to₁, groupCounts (fun e => e.status_code) rows)

/--
`top_endpoints(tenant_id, limit, from_ts, to_ts)` from `api/admin.py`: the
same inline defaulting (no 400 path), grouped by path with per-path error
counts (`status_code ≥ 400`), ordered by count descending, capped at
`limit`.
-/
def top_endpoints (tenant_id : String) (limit : Int)
    (from_ts to_ts : Option PyDatetime) (now : Int)
    (events : List UsageEvent) : Except Int (List (String × Nat × Nat)) :=
  let to₁ := to_ts.getD (dtNow now)
  let from₁ := from_ts.getD (dtSubHours to₁ 24)
  let rows := tenantRows tenant_id from₁.epoch to₁.epoch events
  let grouped := (groupCounts (fun e => e.path) rows).map (fun g =>
    (g.1, g.2, (rows.filter (fun e => e.path == g.1 && 400 ≤ e.status_code)).length))
  Except.ok ((sortDescBy (fun g => g.2.1) grouped).take limit.toNat)

/--
`usage_by_key(tenant_id, from_ts, to_ts)` from `api/admin.py`: inline
defaulting (no 400 path), grouped by `api_key_id` with per-key error counts,
ordered by count descending.
-/
def usage_by_key (tenant_id : String) (from_ts to_ts : Option PyDatetime)
    (now : Int) (events : List UsageEvent) :
    Except Int (List (Option String × Nat × Nat)) :=
  let to₁ := to_ts.getD (dtNow now)
  let from₁ := from_ts.getD (dtSubHours to₁ 24)
  let rows := tenantRows tenant_id from₁.epoch to₁.epoch events
  let grouped := (groupCounts (fun e => e.api_key_id) rows).map (fun g =>
    (g.1, g.2, (rows.filter (fun e =>
      e.api_key_id == g.1 && 400 ≤ e.status_code)).length))
  Except.ok (sortDescBy (fun g => g.2.1) grouped)

/--
`usage_status_classes(tenant_id, from_ts, to_ts)` from `api/admin.py`:
inline defaulting (no 400 path); sums of 2xx / 4xx / 5xx rows in range.
-/
def usage_status_classes (tenant_id : String)
    (from_ts to_ts : Option PyDatetime) (now : Int)
    (events : List UsageEvent) :
    Except Int (PyDatetime × PyDatetime × Nat × Nat × Nat) :=
  let to₁ := to_ts.getD (dtNow now)
  let from₁ := from_ts.getD (dtSubHours to₁ 24)
  let rows := tenantRows tenant_id from₁.epoch to₁.epoch events
  Except.ok (from₁, to₁,
    (rows.filter (fun e => 200 ≤ e.status_code && e.status_code ≤ 299)).length,
    (rows.filter (fun e => 400 ≤ e.status_code && e.status_code ≤ 499)).length,
    (rows.filter (fun e => 500 ≤ e.status_code)).length)

/-- The `WHERE` filter shared by the unauthenticated-traffic analytics:
`tenant_id IS NULL AND ts BETWEEN lo AND hi`. -/
def unauthRow (lo hi : Int) (e : UsageEvent) : Bool :=
  e.tenant_id == none && lo ≤ e.ts && e.ts ≤ hi

/--
`unauth_usage(from_ts, to_ts, top_limit)` from `api/admin.py`: this endpoint
normalizes its range through `_resolve_timerange` (so a 400 propagates),
clamps `top_limit` into `[1, 50]`, and aggregates the `tenant_id IS NULL`
rows: total, per-status counts, top paths (with error counts) and top IPs
(with 401 counts).
-/
def unauth_usage (from_ts to_ts : Option PyDatetime) (top_limit : Int)
    (now : Int) (events : List UsageEvent) :
    Except Int (PyDatetime × PyDatetime × Nat × List (Int × Nat) ×
      List (String × Nat × Nat) × List (Option String × Nat × Nat)) := do
  let (f, t) ← resolve_timerange from_ts to_ts now 24
  let lim := (min (max top_limit 1) 50).toNat
  let rows := events.filter (unauthRow f.epoch t.epoch)
  let by_status := groupCounts (fun e => e.status_code) rows
  let top_paths := ((sortDescBy (fun g => g.2)
      (groupCounts (fun e => e.path) rows)).take lim).map (fun g =>
    (g.1, g.2, (rows.filter (fun e =>
      e.path == g.1 && 400 ≤ e.status_code)).length))
  let top_ips := ((sortDescBy (fun g => g.2)
      (groupCounts (fun e => e.client_ip) rows)).take lim).map (fun g =>
    (g.1, g.2, (rows.filter (fun e =>
      e.client_ip == g.1 && e.status_code == 401)).length))
  pure (f, t, rows.length, by_status, top_paths, top_ips)

/--
`global_rate_limited_usage(from_ts, to_ts, top_limit)` from `api/admin.py`:
range through `_resolve_timerange` (400 propagates); total 429 count, top
429 paths, and per-tenant 429 counts over tenants that are not null.
-/
def global_rate_limited_usage (from_ts to_ts : Option PyDatetime)
    (top_limit : Int) (now : Int) (events : List UsageEvent) :
    Except Int (Nat × List (String × Nat) × List (Option String × Nat)) := do
  let (f, t) ← resolve_timerange from_ts to_ts now 24
  let lim := (min (max top_limit 1) 50).toNat
  let rows := events.filter (fun e =>
    e.status_code == 429 && f.epoch ≤ e.ts && e.ts ≤ t.epoch)
  let top_paths := (sortDescBy (fun g => g.2)
    (groupCounts (fun e => e.path) rows)).take lim
  let by_tenant := (sortDescBy (fun g => g.2)
    (groupCounts (fun e => e.tenant_id)
      (rows.filter (fun e => !(e.tenant_id == none))))).take lim
  pure (rows.length, top_paths, by_tenant)

/--
`tenant_rate_limited_usage(tenant_id, from_ts, to_ts, top_limit)` from
`api/admin.py`: range through `_resolve_timerange` (400 propagates); total
429 count for the tenant, per-key and per-path breakdowns.
-/
def tenant_rate_limited_usage (tenant_id : String)
    (from_ts to_ts : Option PyDatetime) (top_limit : Int) (now : Int)
    (events : List UsageEvent) :
    Except Int (Nat × List (Option String × Nat) × List (String × Nat)) := do
  let (f, t) ← resolve_timerange from_ts to_ts now 24
  let lim := (min (max top_limit 1) 50).toNat
  let rows := events.filter (fun e =>
    e.tenant_id == some tenant_id && e.status_code == 429 &&
    f.epoch ≤ e.ts && e.ts ≤ t.epoch)
  let by_key := (sortDescBy (fun g => g.2)
    (groupCounts (fun e => e.api_key_id)
      (rows.filter (fun e => !(e.api_key_id == none))))).take lim
  let top_paths := (sortDescBy (fun g => g.2)
    (groupCounts (fun e => e.path) rows)).take lim
  pure (rows.length, by_key, top_paths)

/-! ## Abuse detection and auto-block — `api/admin.py` -/

/-- The canonical suspect `WHERE` clause: unauthenticated 401 rows inside a
time window (`tenant_id IS NULL AND status_code = 401 AND ts BETWEEN … `). -/
def unauth401Row (lo hi : Int) (e : UsageEvent) : Bool :=
  e.tenant_id == none && e.status_code == 401 && lo ≤ e.ts && e.ts ≤ hi

/--
The suspect aggregation shared by `abuse_suspects`,
`auto_block_from_suspects` and `block_top_suspects`: group the
unauthenticated-401 rows by `client_ip`, keep groups with at least
`min_count` rows, order by count descending and cap at `limit`.  Each result
row is `(client_ip, unauth_401_count)`.
-/
def suspects_query (events : List UsageEvent) (lo hi : Int)
    (min_count limit : Int) : List (Option String × Nat) :=
  let rows := events.filter (unauth401Row lo hi)
  let grouped := (groupCounts (fun e => e.client_ip) rows).filter
    (fun g => min_count ≤ (g.2 : Int))
  (sortDescBy (fun g => g.2) grouped).take limit.toNat

/-- `str(x)` as an f-string renders Python `None` as `"None"`. -/
def pyStr (o : Option String) : String := o.getD "None"

/-- The JSON document `_push_block_event` dumps for a `block` action
(field order follows `json.dumps` of the literal dict in `api/admin.py`). -/
def block_event_json (client_ip : Option String)
    (block_id reason_code reason : String) (ts_epoch expires_at_epoch : Int)
    (actor : String) : String :=
  let ipJson := match client_ip with
    | none => "null"
    | some ip => "\"" ++ ip ++ "\""
  "\x7b\"event_type\": \"block\", \"ts_epoch\": " ++ toString ts_epoch ++
    ", \"client_ip\": " ++ ipJson ++ ", \"block_id\": \"" ++ block_id ++
    "\", \"reason_code\": \"" ++ reason_code ++ "\", \"reason\": \"" ++
    reason ++ "\", \"expires_at_epoch\": " ++ toString expires_at_epoch ++
    "\", \"actor\": \"" ++ actor ++ "\"\x7d"

/-- The request payloads of `POST /admin/abuse/auto-block`
(`AutoBlockFromSuspectsIn`) and `POST /admin/abuse/suspects/block`
(`BlockSuspectsIn`); `limit_or_top_n` carries `limit` for the former and
`top_n` for the latter, the only field in which the two models differ. -/
structure AutoBlockIn where
  window_minutes : Int
  min_unauth_401 : Int
  ttl_seconds : Int
  reason_code : String
  reason : String
  dry_run : Bool
  include_localhost : Bool
  limit_or_top_n : Int
deriving Repr, DecidableEq

/-- An entry of the `blocked` array in an auto-block response. -/
structure AutoBlockEntry where
  client_ip : Option String
  unauth_401_count : Nat
  block_id : String
  reason_code : String
  reason : String
  ttl_seconds : Int
  expires_at_epoch : Int
  dry_run : Bool
deriving Repr, DecidableEq

/-- The claim-relevant fields of an auto-block response body. -/
structure AutoBlockOut where
  dry_run : Bool
  blocked : List AutoBlockEntry
  skipped : List (Option String × String)
deriving Repr, DecidableEq

/-- Is this suspect IP protected by the localhost guard? -/
def localhostGuarded (payload : AutoBlockIn) (cfg : Settings)
    (ip : Option String) : Bool :=
  (ip == some "127.0.0.1" || ip == some "::1") &&
    !payload.include_localhost && !cfg.allow_block_localhost

/--
One iteration of the suspect loop shared verbatim by
`auto_block_from_suspects` and `block_top_suspects` in `api/admin.py`
(`actor` is `auto_block` for the former, `one_click` for the latter):
skip a localhost suspect; in dry-run mode record the would-be block and
touch nothing; otherwise `SET` the block key with TTL, `ZADD` the index,
push a `block` event, and record the block performed.  The accumulator is
`(blocked, skipped, store, next uuid index)`.
-/
def auto_block_step (cfg : Settings) (payload : AutoBlockIn)
    (uuids : Nat → String) (now : Int) (actor : String)
    (acc : List AutoBlockEntry × List (Option String × String) ×
      RedisState × Nat) (s : Option String × Nat) :
    List AutoBlockEntry × List (Option String × String) × RedisState × Nat :=
  let (blocked, skipped, st, i) := acc
  let ip := s.1
  if localhostGuarded payload cfg ip then
    (blocked, skipped ++ [(ip, "localhost_block_protection")], st, i)
  else
    let created_at_epoch := now
    let expires_at_epoch := now + payload.ttl_seconds
    let block_id := uuids i
    let rc := if ALLOWED_REASON_CODES.contains payload.reason_code
              then payload.reason_code else "manual"
    if payload.dry_run then
      (blocked ++ [⟨ip, s.2, block_id, rc, payload.reason,
        payload.ttl_seconds, expires_at_epoch, true⟩], skipped, st, i + 1)
    else
      let key := BLOCK_IP_PREFIX ++ pyStr ip
      let value := make_block_payload block_id rc payload.reason
        created_at_epoch expires_at_epoch
      let st₁ := ((st.setex key value payload.ttl_seconds).zadd (pyStr ip)
        expires_at_epoch).lpushTrim
          (block_event_json ip block_id rc payload.reason created_at_epoch
            expires_at_epoch actor) 5000
      let ttl := st₁.ttlOf key
      (blocked ++ [⟨ip, s.2, block_id, rc, payload.reason,
        (if 0 < ttl then ttl else payload.ttl_seconds), expires_at_epoch,
        false⟩], skipped, st₁, i + 1)

/--
`auto_block_from_suspects(payload)` from `api/admin.py`
(`POST /admin/abuse/auto-block`): 409 when `ENABLE_AUTO_BLOCK` is off;
otherwise compute the suspects for the window and run the block loop with
actor `auto_block`.
-/
def auto_block_from_suspects (cfg : Settings) (payload : AutoBlockIn)
    (uuids : Nat → String) (now : Int) (events : List UsageEvent)
    (st : RedisState) : Except Int AutoBlockOut × RedisState :=
  if !cfg.enable_auto_block then (Except.error 409, st)
  else
    let lo := now - payload.window_minutes * 60
    let suspects := suspects_query events lo now payload.min_unauth_401
      payload.limit_or_top_n
    let (blocked, skipped, st', _) := suspects.foldl
      (auto_block_step cfg payload uuids now "auto_block") ([], [], st, 0)
    (Except.ok ⟨payload.dry_run, blocked, skipped⟩, st')

/--
`block_top_suspects(payload)` from `api/admin.py`
(`POST /admin/abuse/suspects/block`): the same gate, suspect query (capped
at `top_n`) and block loop, with actor `one_click`.
-/
def block_top_suspects (cfg : Settings) (payload : AutoBlockIn)
    (uuids : Nat → String) (now : Int) (events : List UsageEvent)
    (st : RedisState) : Except Int AutoBlockOut × RedisState :=
  if !cfg.enable_auto_block then (Except.error 409, st)
  else
    let lo := now - payload.window_minutes * 60
    let suspects := suspects_query events lo now payload.min_unauth_401
      payload.limit_or_top_n
    let (blocked, skipped, st', _) := suspects.foldl
      (auto_block_step cfg payload uuids now "one_click") ([], [], st, 0)
    (Except.ok ⟨payload.dry_run, blocked, skipped⟩, st')

/-! ## Blocked listing and blocks report — `api/admin.py` -/

/-- An entry of the `blocked` array returned by `GET /admin/abuse/blocked`. -/
structure BlockedEntry where
  client_ip : String
  ttl_seconds : Option Int
  block_id : JVal
  reason_code : JVal
  reason : JVal
  expires_at_epoch : JVal

/-- Stable insertion into a list kept ascending by an integer-pair key
(Python's tuple-ordered `list.sort`). -/
def insertAscByPair {α : Type} (f : α → Int × Int) (a : α) :
    List α → List α
  | [] => [a]
  | b :: bs =>
    if (f b).1 < (f a).1 || ((f b).1 = (f a).1 && (f b).2 ≤ (f a).2) then
      b :: insertAscByPair f a bs
    else
      a :: b :: bs

/-- Sort ascending by an integer-pair key. -/
def sortAscByPair {α : Type} (f : α → Int × Int) (l : List α) : List α :=
  l.foldr (insertAscByPair f) []

/-- The sort key used by the blocked listing and the blocks report:
entries with no TTL sort last, others ascending by TTL. -/
def ttlSortKey (ttl_seconds : Option Int) : Int × Int :=
  ((if ttl_seconds.isNone then 1 else 0), ttl_seconds.getD (10 ^ 9))

/--
`list_blocked_ips(limit)` from `api/admin.py` (`GET /admin/abuse/blocked`):
clamp `limit` into `[1, 1000]`, scan up to `limit` keys under `blk:ip:`,
read TTL and value for each, parse the value with `_parse_block_value`, and
sort with null TTLs last.  `scan_iter` visits keys in unspecified order; the
embedding visits them in store order.
-/
def list_blocked_ips (loads : String → Option JVal) (limit : Int)
    (st : RedisState) : List BlockedEntry :=
  let lim := (min (max limit 1) 1000).toNat
  let keys := ((st.strings.map (·.1)).filter
    (fun k => pyStartsWith k BLOCK_IP_PREFIX)).take lim
  let entries := keys.map (fun key =>
    let ip := String.mk (key.data.drop BLOCK_IP_PREFIX.data.length)
    let ttl := st.ttlOf key
    let meta := parse_block_value loads (st.get key)
    (⟨ip, (if 0 < ttl then some ttl else none), jget meta "block_id",
      jor (jget meta "reason_code") (JVal.str "manual"), jget meta "reason",
      jget meta "expires_at_epoch"⟩ : BlockedEntry))
  sortAscByPair (fun e => ttlSortKey e.ttl_seconds) entries

/-- The IPs a blocked listing shows. -/
def listedBlockedIps (loads : String → Option JVal) (limit : Int)
    (st : RedisState) : List String :=
  (list_blocked_ips loads limit st).map (·.client_ip)

/-- An entry of the `active` array of the blocks report. -/
structure ReportActiveEntry where
  client_ip : String
  ttl_seconds : Option Int
  expires_at_epoch : JVal
  block_id : JVal
  reason_code : JVal
  reason : JVal

/-- The `active` entry the blocks report builds for a scanned IP whose key
holds `raw_val` (its TTL and index score are read from the same fixed
state). -/
def report_active_entry (loads : String → Option JVal) (st : RedisState)
    (ip : String) (raw_val : String) : ReportActiveEntry :=
  let ttl := st.ttlOf (BLOCK_IP_PREFIX ++ ip)
  let meta := parse_block_value loads (some raw_val)
  ⟨ip, (if 0 < ttl then some ttl else none),
   jor (jget meta "expires_at_epoch")
     (((st.zscore ip).map JVal.num).getD JVal.null),
   jget meta "block_id",
   jor (jget meta "reason_code") (JVal.str "manual"),
   jget meta "reason"⟩

/-- One iteration of the classification loop of `blocks_report`: read the
IP's key, TTL and index score and append it to the `active`,
`expired_recently` or `stale` group. -/
def blocks_report_step (loads : String → Option JVal) (st : RedisState)
    (since_epoch : Int)
    (acc : List ReportActiveEntry × List (String × Int) × List String)
    (ip : String) :
    List ReportActiveEntry × List (String × Int) × List String :=
  let (active, expired_recently, stale) := acc
  let key := BLOCK_IP_PREFIX ++ ip
  let raw := st.get key
  let expiry_epoch := st.zscore ip
  match raw with
  | none =>
    match expiry_epoch with
    | some z =>
      if since_epoch ≤ z then
        (active, expired_recently ++ [(ip, z)], stale)
      else
        (active, expired_recently, stale ++ [ip])
    | none => (active, expired_recently, stale ++ [ip])
  | some raw_val =>
    (active ++ [report_active_entry loads st ip raw_val], expired_recently,
     stale)

/-- The classification loop of `blocks_report`: fold over the scanned IPs
(`GET`/`TTL`/`ZSCORE` do not mutate the store, so the loop reads one fixed
state), producing the `active`, `expired_recently` and `stale` groups. -/
def blocks_report_classify (loads : String → Option JVal) (st : RedisState)
    (since_epoch : Int) (ips : List String) :
    List ReportActiveEntry × List (String × Int) × List String :=
  ips.foldl (blocks_report_step loads st since_epoch) ([], [], [])

/--
`blocks_report(lookback_minutes, limit)` from `api/admin.py`
(`GET /admin/abuse/blocks/report`): clamp the parameters, range-scan
`blk:index` for scores in `[now - lookback, now + 10^9]` capped at `limit`,
classify each scanned IP as `active` (key present), `expired_recently` (key
absent, score within the lookback) or `stale` (neither), then `ZREM` the
stale members.  The result is `(active, expired_recently, stale, store')`;
the response body presents `active` sorted TTL-ascending (nulls last),
`expired_recently` sorted by expiry descending and capped at `limit`, and
`len(stale)` as `cleaned_stale_index_members`.
-/
def blocks_report (loads : String → Option JVal) (lookback_minutes limit : Int)
    (now : Int) (st : RedisState) :
    (List ReportActiveEntry × List (String × Int) × List String) ×
      RedisState :=
  let lb := min (max lookback_minutes 1) (7 * 24 * 60)
  let lim := (min (max limit 1) 1000).toNat
  let since_epoch := now - lb * 60
  let ips := (st.zrangebyscore since_epoch (now + 10 ^ 9)).take lim
  let (active, expired_recently, stale) :=
    blocks_report_classify loads st since_epoch ips
  let st' := if stale.isEmpty then st else (st.zrem stale).2
  ((active, expired_recently, stale), st')

/-! ## The application — `main.py` -/

/--
The request-id middleware.  Modelled from the spec: `main.py` imports
`RequestIdMiddleware` from `gatekeeper.core.request_id`, a module missing
from the source tree; per spec §4.5 it "generates a value if the inbound
`X-Request-Id` is absent and pins it on request state and on the outbound
response".  `gen_id` is the generated value.
-/
def request_id_middleware (gen_id : String) (req : HttpReq) :
    HttpReq × String :=
  let rid := (req.x_request_id).getD gen_id
  ({ req with state := { req.state with request_id := some rid } }, rid)

/--
The application's middleware chain and routing, as wired in `main.py`:
`add_middleware(RequestIdMiddleware)` plus the `inject_request_id_into_logs`
logging middleware (which only logs and passes the response through), then
the `health`, `admin` and `gateway` routers.  `main.py` registers **no
other** middleware: in particular neither `IPBlocklistMiddleware` nor
`UsageLoggingMiddleware` is installed.  The embedding routes `/health` and
the gateway's `/protected`; the admin routes dispatch to the admin handlers
embedded above and the remaining routes are immaterial to the claims, so
they fall to the 404 default.
-/
def app_handle (hashKey : String → String) (cfg : Settings) (gen_id : String)
    (req : HttpReq) (db : List ApiKeyRec) (st : RedisState) (now : Int) :
    HttpResp × RedisState :=
  let (req₁, rid) := request_id_middleware gen_id req
  let ridHeader := [("X-Request-Id", rid)]
  if req₁.path = "/health" then
    (⟨200, [("status", JVal.str "ok"), ("postgres", JVal.str "ok"),
            ("redis", JVal.str "ok")], ridHeader⟩, st)
  else if req₁.path = "/protected" then
    let (res, st') := require_client_key hashKey cfg req₁.authorization db st
      now
    match res.outcome with
    | Except.error e =>
      (⟨e.1, [("detail", JVal.str e.2)], ridHeader⟩, st')
    | Except.ok k =>
      (⟨200, [("ok", JVal.bool true), ("tenant_id", JVal.str k.tenant_id),
              ("api_key_id", JVal.str k.id)], ridHeader ++ res.headers⟩, st')
  else
    (⟨404, [("detail", JVal.str "Not Found")], ridHeader⟩, st)

/-! ## Concrete scenario material for closed statements -/

/-- A finite table standing in for `json.loads` in closed statements: the
listed strings decode to the paired values and everything else raises.
Each witness only relies on entries that agree with the real `json.loads`.
-/
def loadsTable (pairs : List (String × JVal)) : String → Option JVal :=
  fun s => (pairs.find? (fun p => p.1 == s)).map (·.2)

/-- Freshness of the UUID an operation mints, mirroring the primary-key
uniqueness the database enforces on insert: a `create` never reuses an
existing key id. -/
def op_fresh : AdminOp → List ApiKeyRec → Prop
  | AdminOp.create _ new_id _ _, db => ∀ k ∈ db, k.id ≠ new_id
  | _, _ => True

/-- A deployment configuration with a non-empty admin token and auto-block
disabled. -/
def cfgDemo : Settings := ⟨"secret", 10, 60, false, false⟩

/-- A deployment configuration whose `ADMIN_TOKEN` is the empty string. -/
def cfgEmptyToken : Settings := ⟨"", 10, 60, false, false⟩

/-- A deployment configuration with auto-block enabled and localhost
blocking disallowed. -/
def cfgAuto : Settings := ⟨"secret", 10, 60, true, false⟩

/-- A deterministic supply of minted UUIDs for closed statements. -/
def uuidsDemo : Nat → String := fun n => "uuid-" ++ toString n

/-- An unauthenticated 401 usage row from localhost at epoch 500. -/
def ev401Local : UsageEvent :=
  ⟨none, none, "GET", "/protected", 401, 1, 500, none, some "127.0.0.1", none⟩

/-- A dry-run auto-block payload with threshold 1 over a 10-minute window. -/
def payloadDryLocal : AutoBlockIn :=
  ⟨10, 1, 600, "auto_unauth_401_surge", "auto: unauth_401 surge", true,
   false, 50⟩

/-- A store holding one active block for `1.2.3.4` (a legacy plain-string
value) that also appears in the block index. -/
def stBlocked : RedisState :=
  ⟨[("blk:ip:1.2.3.4", "blocked-by-operator")], [],
   [("blk:ip:1.2.3.4", 10)], [("1.2.3.4", 1700000010)], []⟩

/-- A credential-less `GET /protected` from the blocked address `1.2.3.4`. -/
def reqBlockedNoAuth : HttpReq :=
  ⟨"GET", "/protected", some "1.2.3.4", none, none, some "curl/8.6",
   ⟨none, none, none⟩⟩

/-- A request that finished 401 with no credential context attached
(the resolver rejected it before any lookup succeeded). -/
def reqNoContext : HttpReq :=
  ⟨"GET", "/protected", some "9.9.9.9", none, none, some "curl/8.6",
   ⟨none, none, some "req-1"⟩⟩

/-- A request that finished with full credential context attached. -/
def reqWithContext : HttpReq :=
  ⟨"GET", "/protected", some "9.9.9.9", some "Bearer k", none,
   some "curl/8.6", ⟨some "t1", some "k1", some "req-2"⟩⟩

/-- A one-credential store whose key `k1` is already revoked. -/
def dbRevoked : List ApiKeyRec :=
  [⟨"k1", "t1", "h1", "h1", 2, 60, some 50, 0⟩]

/-- A store for the blocks-report scenario: `1.1.1.1` is actively blocked,
`2.2.2.2` expired recently (index score inside the lookback, key gone). -/
def stReport : RedisState :=
  ⟨[("blk:ip:1.1.1.1", "spam")], [], [("blk:ip:1.1.1.1", 30)],
   [("1.1.1.1", 650), ("2.2.2.2", 560)], []⟩

/-- The window-scoped counter key `rl:<id>:<window_start>` that one call of
the engine increments. -/
def rl_key (key : String) (W now : Int) : String :=
  "rl:" ++ key ++ ":" ++ toString (now - now % W)

/-- The post-increment counter value observed by one call of the engine. -/
def rl_count (st : RedisState) (key : String) (W now : Int) : Int :=
  (((st.counters.find? (fun p => p.1 == rl_key key W now)).map (·.2)).getD 0)
    + 1

/-- The lower score bound of the blocks-report range scan
(`now − lookback`, after clamping the lookback into `[1, 7·24·60]`
minutes). -/
def report_since (lookback_minutes now : Int) : Int :=
  now - (min (max lookback_minutes 1) (7 * 24 * 60)) * 60

/-- The IPs one blocks-report invocation scans: index members with score in
`[now − lookback, now + 10^9]`, capped at the clamped limit. -/
def report_scanned_ips (lookback_minutes limit now : Int) (st : RedisState) :
    List String :=
  (st.zrangebyscore (report_since lookback_minutes now)
    (now + 10 ^ 9)).take ((min (max limit 1) 1000).toNat)

/-! # Theorems -/

/-- Leftmost-insertion lookup: an upserted binding is found. -/
theorem assoc_find?_upsert_self {α : Type} (k : String) (v : α)
    (l : List (String × α)) :
    ((upsert k v l).find? (fun p => p.1 == k)).map (·.2) = some v := by
  unfold upsert
  rw [List.find?_cons_of_pos _ (by simp)]
  rfl

/--
Claim C1 (code-level evaluation at the failing input): a request rejected
401 for a missing credential attaches no tenant/api-key context, and
`UsageLoggingMiddleware.dispatch` then writes **no** `UsageEvent` row at
all — for every prior table state the table is unchanged — contradicting
the claim that every exit path writes a row with whatever context landed on
request state.
-/
theorem C1_missing_credential_401_writes_no_usage_row
    (events : List UsageEvent) (latency now : Int) :
    usage_logging_dispatch reqNoContext (some 401) latency now events
      = events := by
  simp [usage_logging_dispatch, usage_logging_row, reqNoContext, truthyId]

/--
Claim C2 (code-level evaluation at the failing input): `main.py` never
installs `IPBlocklistMiddleware`, so a credential-less request from the
actively blocked address `1.2.3.4` is routed straight to credential
resolution and answered 401 (not 403) by the application — even though the
un-mounted middleware's own `dispatch`, evaluated on the same request and
store, would short-circuit with 403 and a `Retry-After` header.
-/
theorem C2_blocklist_middleware_not_mounted :
    (app_handle (fun s => s) cfgDemo "rid-1" reqBlockedNoAuth [] stBlocked
        1700000000).1.status = 401 ∧
    (app_handle (fun s => s) cfgDemo "rid-1" reqBlockedNoAuth [] stBlocked
        1700000000).1.status ≠ 403 ∧
    (ip_blocklist_dispatch (loadsTable []) reqBlockedNoAuth stBlocked).map
        (fun r => r.status) = some 403 ∧
    (ip_blocklist_dispatch (loadsTable []) reqBlockedNoAuth stBlocked).map
        (fun r => r.headers) = some [("Retry-After", "10")] := by
  refine ⟨rfl, by decide, rfl, rfl⟩


/--
Claim C3: for every call of the rate-limit engine with `L > 0` and `W > 0`,
the result satisfies `window_start = now − (now mod W)`; the counter key
`rl:<id>:<window_start>` is atomically incremented to `count`
(= `rl_count`); the TTL of `W` seconds is installed exactly when the
post-increment count equals 1 (and the TTL table is untouched otherwise);
`allowed = (count ≤ L)`; `remaining = max 0 (L − count)`;
`reset = window_start + W`.
-/
theorem C3_fixed_window_limit_contract (st : RedisState) (key : String)
    (L W now : Int) (hL : 0 < L) (hW : 0 < W) :
    (fixed_window_limit st key L W now).1.allowed
        = decide (rl_count st key W now ≤ L) ∧
    (fixed_window_limit st key L W now).1.limit = L ∧
    (fixed_window_limit st key L W now).1.remaining
        = max 0 (L - rl_count st key W now) ∧
    (fixed_window_limit st key L W now).1.reset_epoch
        = (now - now % W) + W ∧
    (((fixed_window_limit st key L W now).2.counters.find?
        (fun p => p.1 == rl_key key W now)).map (·.2))
        = some (rl_count st key W now) ∧
    (((fixed_window_limit st key L W now).2.ttl.find?
        (fun p => p.1 == rl_key key W now)).map (·.2)
      = if rl_count st key W now = 1 then some W
        else (st.ttl.find? (fun p => p.1 == rl_key key W now)).map (·.2)) ∧
    (rl_count st key W now ≠ 1 →
      (fixed_window_limit st key L W now).2.ttl = st.ttl) := by
  refine ⟨rfl, rfl, rfl, rfl, ?_, ?_, ?_⟩
  · by_cases hc : rl_count st key W now = 1
    · simp only [rl_count, rl_key] at hc ⊢
      simp only [fixed_window_limit, RedisState.incr, RedisState.expire]
      rw [if_pos hc]
      exact assoc_find?_upsert_self _ _ _
    · simp only [rl_count, rl_key] at hc ⊢
      simp only [fixed_window_limit, RedisState.incr, RedisState.expire]
      rw [if_neg hc]
      exact assoc_find?_upsert_self _ _ _
  · by_cases hc : rl_count st key W now = 1
    · rw [if_pos hc]
      simp only [rl_count, rl_key] at hc ⊢
      simp only [fixed_window_limit, RedisState.incr, RedisState.expire]
      rw [if_pos hc]
      exact assoc_find?_upsert_self _ _ _
    · rw [if_neg hc]
      simp only [rl_count, rl_key] at hc ⊢
      simp only [fixed_window_limit, RedisState.incr, RedisState.expire]
      rw [if_neg hc]
  · intro hc
    simp only [rl_count, rl_key] at hc
    simp only [fixed_window_limit, RedisState.incr, RedisState.expire]
    rw [if_neg hc]

/-- Witness for C3 at a fresh store: key `k`, limit 2, window 60,
`now = 130` (so `window_start = 120` and this call creates the counter). -/
theorem C3_fixed_window_limit_contract_witness :
    (0 : Int) < 2 ∧ (0 : Int) < 60 ∧
    ((fixed_window_limit RedisState.empty "k" 2 60 130).1.allowed
        = decide (rl_count RedisState.empty "k" 60 130 ≤ 2) ∧
     (fixed_window_limit RedisState.empty "k" 2 60 130).1.limit = 2 ∧
     (fixed_window_limit RedisState.empty "k" 2 60 130).1.remaining
        = max 0 (2 - rl_count RedisState.empty "k" 60 130) ∧
     (fixed_window_limit RedisState.empty "k" 2 60 130).1.reset_epoch
        = ((130 : Int) - 130 % 60) + 60 ∧
     (((fixed_window_limit RedisState.empty "k" 2 60 130).2.counters.find?
        (fun p => p.1 == rl_key "k" 60 130)).map (·.2))
        = some (rl_count RedisState.empty "k" 60 130) ∧
     (((fixed_window_limit RedisState.empty "k" 2 60 130).2.ttl.find?
        (fun p => p.1 == rl_key "k" 60 130)).map (·.2)
       = if rl_count RedisState.empty "k" 60 130 = 1 then some 60
         else (RedisState.empty.ttl.find?
           (fun p => p.1 == rl_key "k" 60 130)).map (·.2)) ∧
     (rl_count RedisState.empty "k" 60 130 ≠ 1 →
       (fixed_window_limit RedisState.empty "k" 2 60 130).2.ttl
         = RedisState.empty.ttl)) :=
  ⟨by decide, by decide,
   C3_fixed_window_limit_contract RedisState.empty "k" 2 60 130
     (by decide) (by decide)⟩

/--
Claim C4 counterexample: in a deployment whose configured `ADMIN_TOKEN` is
the empty string, a request presenting exactly the configured value is
nevertheless rejected with 401 (`require_admin` tests Python truthiness of
the header before comparing), so "if it is equal, the admin check passes"
fails as stated.
-/
theorem C4_empty_token_equal_but_rejected :
    require_admin (some (Settings.admin_token cfgEmptyToken)) cfgEmptyToken
      = Except.error 401 := by rfl

/--
Claim C4 as amended: the admin check passes exactly when the
`X-Admin-Token` header is present, non-empty and equal to the configured
admin token; a missing, empty or unequal header is rejected with 401.
-/
theorem C4_require_admin_ok_iff (provided : Option String) (cfg : Settings) :
    require_admin provided cfg = Except.ok () ↔
      provided = some cfg.admin_token ∧ cfg.admin_token ≠ "" := by
  cases provided with
  | none => simp [require_admin]
  | some t =>
    by_cases h1 : t = ""
    · subst h1
      simp only [require_admin, if_pos rfl]
      constructor
      · intro h
        exact absurd h (by simp)
      · rintro ⟨h, hne⟩
        injection h with hh
        exact absurd hh.symm hne
    · by_cases h2 : t = cfg.admin_token
      · subst h2
        simp [require_admin, h1]
      · simp only [require_admin, if_neg h1]
        rw [if_pos (by exact h2)]
        constructor
        · intro h
          exact absurd h (by simp)
        · rintro ⟨h, _⟩
          exact absurd (by injection h) h2

/--
Claim C9 counterexample: the stored value `"42"` is not a JSON object
(`json.loads` decodes it to the number 42, which is what the supplied table
models), yet the middleware parser returns the empty dict while the admin
parser returns the legacy `reason`/`reason_code` form — so the two readers
do not agree on every raw value, and the middleware reader does not apply
the legacy interpretation to every non-object value.
-/
theorem C9_parsers_disagree_on_number :
    safe_json_loads (loadsTable [("42", JVal.num 42)]) (some "42") = [] ∧
    parse_block_value (loadsTable [("42", JVal.num 42)]) (some "42")
      = legacy_block_meta "42" ∧
    legacy_block_meta "42" ≠ ([] : JDict) := by
  refine ⟨rfl, ?_, by simp [legacy_block_meta]⟩
  simp only [parse_block_value]
  rw [if_neg (show ¬(pyStartsWith "42" "\x7b" = true) by decide)]

/--
Claim C9 as amended: for values starting with a brace the two parsers agree
(both keep a decoded dict, flatten a decoded non-dict to the empty dict, and
fall back to the legacy form on a decode failure); every value `json.loads`
rejects is read by **both** parsers as the legacy
`\x7breason: v, reason_code: manual\x7d` form; both map an absent value to
the empty dict; and the admin parser applies the legacy form to **every**
value not starting with a brace (where the middleware parser instead
returns the empty dict for decodable non-objects, the divergence shown in
the counterexample).
-/
theorem C9_parser_agreement (loads : String → Option JVal) (raw : String) :
    (pyStartsWith raw "\x7b" = true →
      parse_block_value loads (some raw) = safe_json_loads loads (some raw)) ∧
    (loads raw = none →
      safe_json_loads loads (some raw) = legacy_block_meta raw ∧
      parse_block_value loads (some raw) = legacy_block_meta raw) ∧
    parse_block_value loads none = safe_json_loads loads none ∧
    (pyStartsWith raw "\x7b" = false →
      parse_block_value loads (some raw) = legacy_block_meta raw) := by
  refine ⟨?_, ?_, rfl, ?_⟩
  · intro h
    simp only [parse_block_value, safe_json_loads, if_pos h]
  · intro h
    constructor
    · simp only [safe_json_loads, h]
    · simp only [parse_block_value]
      by_cases hs : pyStartsWith raw "\x7b" = true
      · rw [if_pos hs, h]
      · rw [if_neg hs]
  · intro h
    have h' : ¬(pyStartsWith raw "\x7b" = true) := by simp [h]
    simp only [parse_block_value]
    rw [if_neg h']

/-- Witness for C9 at the legacy plain-string value `spam and abuse`
(no brace, and not valid JSON, so the table raises): both readers yield the
legacy dict. -/
theorem C9_parser_agreement_witness :
    (safe_json_loads (loadsTable []) (some "spam and abuse")
        = legacy_block_meta "spam and abuse" ∧
     parse_block_value (loadsTable []) (some "spam and abuse")
        = legacy_block_meta "spam and abuse") :=
  (C9_parser_agreement (loadsTable []) "spam and abuse").2.1 rfl

/--
Claim C10: every `UsageEvent` row the usage-logging middleware inserts has
both `tenant_id` and `api_key_id` attached (non-null); a request that
finishes without both context values attached produces no row at all; and
consequently no inserted row can ever satisfy the `tenant_id IS NULL`
filters of the unauthenticated-traffic and abuse-suspect queries.
-/
theorem C10_usage_rows_fully_attributed (req : HttpReq)
    (response_status : Option Int) (latency now : Int) :
    (∀ e, usage_logging_row req response_status latency now = some e →
      e.tenant_id ≠ none ∧ e.api_key_id ≠ none ∧
      (∀ lo hi, unauthRow lo hi e = false ∧ unauth401Row lo hi e = false)) ∧
    ((truthyId req.state.tenant_id = false ∨
        truthyId req.state.api_key_id = false) →
      usage_logging_row req response_status latency now = none) := by
  constructor
  · intro e he
    unfold usage_logging_row at he
    by_cases hb : truthyId req.state.tenant_id &&
        truthyId req.state.api_key_id
    · rw [if_pos hb] at he
      by_cases hp : req.path = "/health"
      · rw [if_pos hp] at he
        cases he
      · rw [if_neg hp] at he
        injection he with he'
        have h1 : truthyId req.state.tenant_id = true :=
          (Bool.and_eq_true_iff.mp hb).1
        have h2 : truthyId req.state.api_key_id = true :=
          (Bool.and_eq_true_iff.mp hb).2
        have ht : e.tenant_id = req.state.tenant_id := by
          rw [← he']
        have hk : e.api_key_id = req.state.api_key_id := by
          rw [← he']
        have htn : e.tenant_id ≠ none := by
          rw [ht]
          cases hx : req.state.tenant_id with
          | none => rw [hx] at h1; simp [truthyId] at h1
          | some s => simp
        refine ⟨htn, ?_, ?_⟩
        · rw [hk]
          cases hx : req.state.api_key_id with
          | none => rw [hx] at h2; simp [truthyId] at h2
          | some s => simp
        · intro lo hi
          have hfalse : (e.tenant_id == none) = false := by
            cases hx : e.tenant_id with
            | none => exact absurd hx htn
            | some s => rfl
          constructor
          · simp [unauthRow, hfalse]
          · simp [unauth401Row, hfalse]
    · rw [if_neg hb] at he
      cases he
  · intro h
    unfold usage_logging_row
    have hb : (truthyId req.state.tenant_id &&
        truthyId req.state.api_key_id) = false := by
      rcases h with h | h <;> simp [h]
    simp [hb]

/-- Witness for C10: a request carrying full context that finished 429
produces a row that fails both abuse-query filters. -/
theorem C10_usage_rows_fully_attributed_witness :
    unauthRow 0 1000 ⟨some "t1", some "k1", "GET", "/protected", 429, 5, 100,
      some "req-2", some "9.9.9.9", some "curl/8.6"⟩ = false ∧
    unauth401Row 0 1000 ⟨some "t1", some "k1", "GET", "/protected", 429, 5,
      100, some "req-2", some "9.9.9.9", some "curl/8.6"⟩ = false :=
  ((C10_usage_rows_fully_attributed reqWithContext (some 429) 5 100).1
    ⟨some "t1", some "k1", "GET", "/protected", 429, 5, 100, some "req-2",
     some "9.9.9.9", some "curl/8.6"⟩ rfl).2.2 0 1000

/--
Claim C5 counterexample: the per-tenant usage summary does **not** return
400 when `from_ts > to_ts` — with `from_ts` at epoch 100 and `to_ts` at
epoch 0 it answers 200 with an empty aggregation, because
`usage_summary` defaults its bounds inline and never calls
`_resolve_timerange`.
-/
theorem C5_usage_summary_inverted_range_not_400 :
    usage_summary "t1" (some ⟨100, true⟩) (some ⟨0, true⟩) 1000 []
      = Except.ok (⟨100, true⟩, ⟨0, true⟩, []) := by rfl

/--
Claim C5 as amended: the shared helper `_resolve_timerange` defaults a
missing `to_ts` to now and a missing `from_ts` to `to_ts − default_hours`,
interprets naive bounds as UTC, and returns 400 exactly when the effective
`from_ts` exceeds `to_ts`; the endpoints that call it (unauthenticated
traffic, global and per-tenant rate-limited views) propagate the 400; but
the per-tenant usage summary, top endpoints, usage by key and status
classes endpoints default their bounds inline and never return 400.
-/
theorem C5_timerange_contract (from_ts to_ts : Option PyDatetime)
    (now dh : Int) (tenant : String) (limit top_limit : Int)
    (events : List UsageEvent) :
    (resolve_timerange from_ts none now dh
      = resolve_timerange from_ts (some (dtNow now)) now dh) ∧
    (∀ t, resolve_timerange none (some t) now dh
      = resolve_timerange (some (dtSubHours t dh)) (some t) now dh) ∧
    (∀ a b : Int, ∀ aw bw : Bool,
      resolve_timerange (some ⟨a, aw⟩) (some ⟨b, bw⟩) now dh
      = resolve_timerange (some ⟨a, true⟩) (some ⟨b, true⟩) now dh) ∧
    (∀ f t : PyDatetime,
      (resolve_timerange (some f) (some t) now dh = Except.error 400
        ↔ f.epoch > t.epoch)) ∧
    (∃ v, usage_summary tenant from_ts to_ts now events = Except.ok v) ∧
    (∃ v, top_endpoints tenant limit from_ts to_ts now events
      = Except.ok v) ∧
    (∃ v, usage_by_key tenant from_ts to_ts now events = Except.ok v) ∧
    (∃ v, usage_status_classes tenant from_ts to_ts now events
      = Except.ok v) ∧
    (∀ fe te : Int, fe > te →
      unauth_usage (some ⟨fe, true⟩) (some ⟨te, true⟩) top_limit now events
        = Except.error 400 ∧
      global_rate_limited_usage (some ⟨fe, true⟩) (some ⟨te, true⟩)
        top_limit now events = Except.error 400 ∧
      tenant_rate_limited_usage tenant (some ⟨fe, true⟩) (some ⟨te, true⟩)
        top_limit now events = Except.error 400) := by
  refine ⟨rfl, fun t => rfl, ?_, ?_, ⟨_, rfl⟩, ⟨_, rfl⟩, ⟨_, rfl⟩, ⟨_, rfl⟩,
    ?_⟩
  · intro a b aw bw
    cases aw <;> cases bw <;> rfl
  · intro f t
    obtain ⟨fe, fa⟩ := f
    obtain ⟨te, ta⟩ := t
    by_cases h : fe > te
    · cases fa <;> cases ta <;>
        simp [resolve_timerange, dtNow, dtSubHours, h]
    · cases fa <;> cases ta <;>
        simp [resolve_timerange, dtNow, dtSubHours, h]
  · intro fe te h
    have hr : resolve_timerange (some ⟨fe, true⟩) (some ⟨te, true⟩) now 24
        = Except.error 400 := by
      simp [resolve_timerange, h]
    refine ⟨?_, ?_, ?_⟩ <;>
      simp [unauth_usage, global_rate_limited_usage,
        tenant_rate_limited_usage, hr]

/-- Witness for C5 at the inverted range (100, 0): the three
`_resolve_timerange`-based endpoints all answer 400. -/
theorem C5_timerange_contract_witness :
    unauth_usage (some ⟨100, true⟩) (some ⟨0, true⟩) 10 1000 []
      = Except.error 400 ∧
    global_rate_limited_usage (some ⟨100, true⟩) (some ⟨0, true⟩) 10 1000 []
      = Except.error 400 ∧
    tenant_rate_limited_usage "t1" (some ⟨100, true⟩) (some ⟨0, true⟩) 10
      1000 [] = Except.error 400 :=
  (C5_timerange_contract none none 1000 24 "t1" 10 10 []).2.2.2.2.2.2.2.2
    100 0 (by decide)

/--
Claim C6: revocation is one-way and monotone — (a) across every admin
operation on the `api_keys` table (create, revoke, set-limits, set-tier),
a row whose `revoked_at` is set never has it cleared (under primary-key
uniqueness of ids and freshness of minted ids); (b) a second revoke call
returns `already_revoked` and leaves the table unchanged; (c) the resolver
answers 401 `Invalid API key` (never 200) to any request presenting a
credential whose row is revoked.
-/
theorem C6_revocation_monotone :
    (∀ (hashKey : String → String) (tenants : List TenantRec) (op : AdminOp)
      (db : List ApiKeyRec),
      op_fresh op db → (db.map (fun k => k.id)).Nodup →
      ∀ k ∈ db, k.revoked_at.isSome = true →
      ∀ k' ∈ AdminOp.apply hashKey tenants op db, k'.id = k.id →
        k'.revoked_at.isSome = true) ∧
    (∀ (key_id : String) (now : Int) (db : List ApiKeyRec) (k : ApiKeyRec),
      db.find? (fun x => x.id == key_id) = some k →
      k.revoked_at.isSome = true →
      revoke_api_key key_id now db = (Except.ok "already_revoked", db)) ∧
    (∀ (hashKey : String → String) (cfg : Settings) (auth : String)
      (db : List ApiKeyRec) (st : RedisState) (now : Int) (k : ApiKeyRec),
      pyStartsWith auth "Bearer " = true →
      pyStrip (pyRemovePrefix auth "Bearer ") ≠ "" →
      db.find? (fun x => x.key_hash ==
        hashKey (pyStrip (pyRemovePrefix auth "Bearer "))) = some k →
      k.revoked_at.isSome = true →
      (require_client_key hashKey cfg (some auth) db st now).1.outcome
        = Except.error (401, "Invalid API key")) := by
  refine ⟨?_, ?_, ?_⟩
  · intro hashKey tenants op db hfresh hnodup k hk hkrev k' hk' hid
    have huniq : ∀ a ∈ db, ∀ b ∈ db, a.id = b.id → a = b :=
      fun a ha b hb hab => List.inj_on_of_nodup_map hnodup ha hb hab
    cases op with
    | create tid nid plain cnow =>
      simp only [AdminOp.apply, create_api_key] at hk'
      split at hk'
      · rw [huniq k' hk' k hk hid]
        exact hkrev
      · split at hk'
        · rw [huniq k' hk' k hk hid]
          exact hkrev
        · rcases List.mem_append.mp hk' with h | h
          · rw [huniq k' h k hk hid]
            exact hkrev
          · simp only [List.mem_singleton] at h
            subst h
            exact absurd hid.symm (hfresh k hk)
    | revoke kid rnow =>
      simp only [AdminOp.apply, revoke_api_key] at hk'
      split at hk'
      · rw [huniq k' hk' k hk hid]
        exact hkrev
      · split at hk'
        · rw [huniq k' hk' k hk hid]
          exact hkrev
        · rcases List.mem_map.mp hk' with ⟨k₀, hk₀, heq⟩
          by_cases hc : (k₀.id == kid) = true
          · rw [← heq]
            simp [hc]
          · rw [← heq] at hid ⊢
            simp only [hc] at hid ⊢
            simp only [Bool.false_eq_true, if_false] at hid ⊢
            rw [huniq k₀ hk₀ k hk hid]
            exact hkrev
    | setLimits kid rl rwin =>
      simp only [AdminOp.apply, set_key_limits] at hk'
      split at hk'
      · rw [huniq k' hk' k hk hid]
        exact hkrev
      · rcases List.mem_map.mp hk' with ⟨k₀, hk₀, hrec⟩
        by_cases hc : (k₀.id == kid) = true
        · rw [← hrec] at hid ⊢
          simp only [hc, if_true] at hid ⊢
          have : k₀ = k := huniq k₀ hk₀ k hk (by simpa using hid)
          rw [this]
          exact hkrev
        · rw [← hrec] at hid ⊢
          simp only [hc, Bool.false_eq_true, if_false] at hid ⊢
          rw [huniq k₀ hk₀ k hk hid]
          exact hkrev
    | setTier kid tier =>
      simp only [AdminOp.apply, set_key_tier] at hk'
      split at hk'
      · rw [huniq k' hk' k hk hid]
        exact hkrev
      · split at hk'
        · rw [huniq k' hk' k hk hid]
          exact hkrev
        · split at hk'
          · rw [huniq k' hk' k hk hid]
            exact hkrev
          · rcases List.mem_map.mp hk' with ⟨k₀, hk₀, hrec⟩
            by_cases hc : (k₀.id == kid) = true
            · rw [← hrec] at hid ⊢
              simp only [hc, if_true] at hid ⊢
              have : k₀ = k := huniq k₀ hk₀ k hk (by simpa using hid)
              rw [this]
              exact hkrev
            · rw [← hrec] at hid ⊢
              simp only [hc, Bool.false_eq_true, if_false] at hid ⊢
              rw [huniq k₀ hk₀ k hk hid]
              exact hkrev
  · intro key_id now db k hfind hrev
    simp [revoke_api_key, hfind, hrev]
  · intro hashKey cfg auth db st now k hstart hplain hfind hrev
    simp only [require_client_key, hstart, Bool.not_true,
      Bool.false_eq_true, if_false]
    rw [if_neg hplain, hfind]
    simp [hrev]

/-- Witness for C6: on a one-row table whose key `k1` is revoked at 50,
(a) a set-limits update keeps it revoked, (b) a second revoke reports
`already_revoked` without touching the table, (c) presenting `Bearer h1`
(hashed by the identity stand-in to the stored fingerprint `h1`) yields
401 `Invalid API key`. -/
theorem C6_revocation_monotone_witness :
    (⟨"k1", "t1", "h1", "h1", 5, 60, some 50, 0⟩ : ApiKeyRec).revoked_at.isSome
        = true ∧
    revoke_api_key "k1" 99 dbRevoked = (Except.ok "already_revoked",
      dbRevoked) ∧
    (require_client_key (fun s => s) cfgDemo (some "Bearer h1") dbRevoked
      RedisState.empty 0).1.outcome = Except.error (401, "Invalid API key") :=
  ⟨C6_revocation_monotone.1 (fun s => s) [] (AdminOp.setLimits "k1" 5 60)
      dbRevoked trivial (by decide)
      ⟨"k1", "t1", "h1", "h1", 2, 60, some 50, 0⟩ (by decide) (by decide)
      ⟨"k1", "t1", "h1", "h1", 5, 60, some 50, 0⟩ (by decide) (by decide),
   C6_revocation_monotone.2.1 "k1" 99 dbRevoked
      ⟨"k1", "t1", "h1", "h1", 2, 60, some 50, 0⟩ (by decide) (by decide),
   C6_revocation_monotone.2.2 (fun s => s) cfgDemo "Bearer h1" dbRevoked
      RedisState.empty 0 ⟨"k1", "t1", "h1", "h1", 2, 60, some 50, 0⟩
      (by decide) (by decide) (by decide) (by decide)⟩

/-- One step of the suspect loop on a localhost-guarded suspect: record the
skip, touch nothing else. -/
theorem auto_block_step_guarded (cfg : Settings) (payload : AutoBlockIn)
    (uuids : Nat → String) (now : Int) (actor : String)
    (blocked : List AutoBlockEntry)
    (skipped : List (Option String × String)) (st : RedisState) (i : Nat)
    (s : Option String × Nat)
    (hg : localhostGuarded payload cfg s.1 = true) :
    auto_block_step cfg payload uuids now actor (blocked, skipped, st, i) s
      = (blocked, skipped ++ [(s.1, "localhost_block_protection")], st, i) := by
  unfold auto_block_step
  simp [hg]

/-- One step of the suspect loop on an unguarded suspect in dry-run mode:
record the would-be block, consume one UUID, touch nothing else. -/
theorem auto_block_step_dry (cfg : Settings) (payload : AutoBlockIn)
    (uuids : Nat → String) (now : Int) (actor : String)
    (blocked : List AutoBlockEntry)
    (skipped : List (Option String × String)) (st : RedisState) (i : Nat)
    (s : Option String × Nat)
    (hg : localhostGuarded payload cfg s.1 = false)
    (hdry : payload.dry_run = true) :
    auto_block_step cfg payload uuids now actor (blocked, skipped, st, i) s
      = (blocked ++ [⟨s.1, s.2, uuids i,
          (if ALLOWED_REASON_CODES.contains payload.reason_code
           then payload.reason_code else "manual"), payload.reason,
          payload.ttl_seconds, now + payload.ttl_seconds, true⟩],
         skipped, st, i + 1) := by
  unfold auto_block_step
  simp [hg, hdry]

/-- The suspect loop only appends to `blocked`: accumulated entries
survive (stated for dry-run mode, the mode the frame claim is about). -/
theorem auto_block_fold_blocked_mono (cfg : Settings) (payload : AutoBlockIn)
    (uuids : Nat → String) (now : Int) (actor : String)
    (hdry : payload.dry_run = true)
    (suspects : List (Option String × Nat)) :
    ∀ (blocked : List AutoBlockEntry)
      (skipped : List (Option String × String)) (st : RedisState) (i : Nat)
      (e : AutoBlockEntry), e ∈ blocked →
      e ∈ (suspects.foldl (auto_block_step cfg payload uuids now actor)
        (blocked, skipped, st, i)).1 := by
  induction suspects with
  | nil => intro blocked skipped st i e he; exact he
  | cons s tl ih =>
    intro blocked skipped st i e he
    rw [List.foldl_cons]
    by_cases hg : localhostGuarded payload cfg s.1 = true
    · rw [auto_block_step_guarded cfg payload uuids now actor _ _ _ _ _ hg]
      exact ih _ _ _ _ e he
    · rw [auto_block_step_dry cfg payload uuids now actor _ _ _ _ _
        (Bool.not_eq_true _ ▸ hg) hdry]
      exact ih _ _ _ _ e (List.mem_append.mpr (Or.inl he))

/-- The suspect loop only appends to `skipped`: accumulated entries
survive (dry-run mode). -/
theorem auto_block_fold_skipped_mono (cfg : Settings) (payload : AutoBlockIn)
    (uuids : Nat → String) (now : Int) (actor : String)
    (hdry : payload.dry_run = true)
    (suspects : List (Option String × Nat)) :
    ∀ (blocked : List AutoBlockEntry)
      (skipped : List (Option String × String)) (st : RedisState) (i : Nat)
      (p : Option String × String), p ∈ skipped →
      p ∈ (suspects.foldl (auto_block_step cfg payload uuids now actor)
        (blocked, skipped, st, i)).2.1 := by
  induction suspects with
  | nil => intro blocked skipped st i p hp; exact hp
  | cons s tl ih =>
    intro blocked skipped st i p hp
    rw [List.foldl_cons]
    by_cases hg : localhostGuarded payload cfg s.1 = true
    · rw [auto_block_step_guarded cfg payload uuids now actor _ _ _ _ _ hg]
      exact ih _ _ _ _ p (List.mem_append.mpr (Or.inl hp))
    · rw [auto_block_step_dry cfg payload uuids now actor _ _ _ _ _
        (Bool.not_eq_true _ ▸ hg) hdry]
      exact ih _ _ _ _ p hp

/-- In dry-run mode the suspect loop never touches the store. -/
theorem auto_block_fold_dry_state (cfg : Settings) (payload : AutoBlockIn)
    (uuids : Nat → String) (now : Int) (actor : String)
    (hdry : payload.dry_run = true)
    (suspects : List (Option String × Nat)) :
    ∀ (blocked : List AutoBlockEntry)
      (skipped : List (Option String × String)) (st : RedisState) (i : Nat),
      (suspects.foldl (auto_block_step cfg payload uuids now actor)
        (blocked, skipped, st, i)).2.2.1 = st := by
  induction suspects with
  | nil => intro blocked skipped st i; rfl
  | cons s tl ih =>
    intro blocked skipped st i
    rw [List.foldl_cons]
    by_cases hg : localhostGuarded payload cfg s.1 = true
    · rw [auto_block_step_guarded cfg payload uuids now actor _ _ _ _ _ hg]
      exact ih _ _ _ _
    · rw [auto_block_step_dry cfg payload uuids now actor _ _ _ _ _
        (Bool.not_eq_true _ ▸ hg) hdry]
      exact ih _ _ _ _

/-- In dry-run mode every suspect lands under `blocked` (with
`dry_run = true`) or — when localhost-guarded — under `skipped`. -/
theorem auto_block_fold_dry_mem (cfg : Settings) (payload : AutoBlockIn)
    (uuids : Nat → String) (now : Int) (actor : String)
    (hdry : payload.dry_run = true)
    (suspects : List (Option String × Nat)) :
    ∀ (blocked : List AutoBlockEntry)
      (skipped : List (Option String × String)) (st : RedisState) (i : Nat),
      ∀ s ∈ suspects,
        (localhostGuarded payload cfg s.1 = true →
          (s.1, "localhost_block_protection") ∈
            (suspects.foldl (auto_block_step cfg payload uuids now actor)
              (blocked, skipped, st, i)).2.1) ∧
        (localhostGuarded payload cfg s.1 = false →
          ∃ e ∈ (suspects.foldl (auto_block_step cfg payload uuids now actor)
              (blocked, skipped, st, i)).1,
            e.client_ip = s.1 ∧ e.dry_run = true) := by
  induction suspects with
  | nil => intro blocked skipped st i s hs; cases hs
  | cons hd tl ih =>
    intro blocked skipped st i s hs
    rw [List.foldl_cons]
    rcases List.mem_cons.mp hs with hseq | hstl
    · subst hseq
      constructor
      · intro hg
        rw [auto_block_step_guarded cfg payload uuids now actor _ _ _ _ _ hg]
        exact auto_block_fold_skipped_mono cfg payload uuids now actor hdry
          tl _ _ _ _ _ (List.mem_append.mpr (Or.inr
            (List.mem_singleton.mpr rfl)))
      · intro hg
        rw [auto_block_step_dry cfg payload uuids now actor _ _ _ _ _ hg
          hdry]
        refine ⟨⟨s.1, s.2, uuids i,
          (if ALLOWED_REASON_CODES.contains payload.reason_code
           then payload.reason_code else "manual"), payload.reason,
          payload.ttl_seconds, now + payload.ttl_seconds, true⟩, ?_, rfl,
          rfl⟩
        exact auto_block_fold_blocked_mono cfg payload uuids now actor hdry
          tl _ _ _ _ _ (List.mem_append.mpr (Or.inr
            (List.mem_singleton.mpr rfl)))
    · by_cases hgh : localhostGuarded payload cfg hd.1 = true
      · rw [auto_block_step_guarded cfg payload uuids now actor _ _ _ _ _
          hgh]
        exact ih _ _ _ _ s hstl
      · rw [auto_block_step_dry cfg payload uuids now actor _ _ _ _ _
          (Bool.not_eq_true _ ▸ hgh) hdry]
        exact ih _ _ _ _ s hstl

/--
Claim C7 counterexample: with auto-block enabled, `dry_run = true` and one
suspect (`127.0.0.1`, 60 unauthenticated 401s modelled by threshold 1 over
one row), the suspect is **not** reported under `blocked` — the localhost
guard routes it to `skipped` even in dry-run — so "the response still
reports each suspect under blocked with dry_run: true" fails as stated
(the KV store is indeed left unchanged).
-/
theorem C7_dry_run_localhost_suspect_not_under_blocked :
    suspects_query [ev401Local] 0 600 1 50 = [(some "127.0.0.1", 1)] ∧
    auto_block_from_suspects cfgAuto payloadDryLocal uuidsDemo 600
        [ev401Local] RedisState.empty
      = (Except.ok ⟨true, [],
          [(some "127.0.0.1", "localhost_block_protection")]⟩,
         RedisState.empty) := by
  refine ⟨by decide, by rfl⟩

/--
Claim C7 as amended: for every invocation of either auto-block entry point
with auto-block enabled and `dry_run = true`, the KV store is returned
entirely unchanged (no block key, no index member, no event is written), a
subsequent blocked listing is exactly what it was before, and the response
reports every suspect that is not caught by the localhost guard under
`blocked` with `dry_run: true` (localhost-guarded suspects are reported
under `skipped` instead).
-/
theorem C7_dry_run_frame (cfg : Settings) (payload : AutoBlockIn)
    (uuids : Nat → String) (now : Int) (events : List UsageEvent)
    (st : RedisState) (henabled : cfg.enable_auto_block = true)
    (hdry : payload.dry_run = true) :
    (auto_block_from_suspects cfg payload uuids now events st).2 = st ∧
    (block_top_suspects cfg payload uuids now events st).2 = st ∧
    (∀ loads limit,
      listedBlockedIps loads limit
          (auto_block_from_suspects cfg payload uuids now events st).2
        = listedBlockedIps loads limit st ∧
      listedBlockedIps loads limit
          (block_top_suspects cfg payload uuids now events st).2
        = listedBlockedIps loads limit st) ∧
    (∃ out, (auto_block_from_suspects cfg payload uuids now events st).1
        = Except.ok out ∧ out.dry_run = true ∧
      ∀ s ∈ suspects_query events (now - payload.window_minutes * 60) now
          payload.min_unauth_401 payload.limit_or_top_n,
        (localhostGuarded payload cfg s.1 = true →
          (s.1, "localhost_block_protection") ∈ out.skipped) ∧
        (localhostGuarded payload cfg s.1 = false →
          ∃ e ∈ out.blocked, e.client_ip = s.1 ∧ e.dry_run = true)) ∧
    (∃ out, (block_top_suspects cfg payload uuids now events st).1
        = Except.ok out ∧ out.dry_run = true ∧
      ∀ s ∈ suspects_query events (now - payload.window_minutes * 60) now
          payload.min_unauth_401 payload.limit_or_top_n,
        (localhostGuarded payload cfg s.1 = true →
          (s.1, "localhost_block_protection") ∈ out.skipped) ∧
        (localhostGuarded payload cfg s.1 = false →
          ∃ e ∈ out.blocked, e.client_ip = s.1 ∧ e.dry_run = true)) := by
  have hstateA := auto_block_fold_dry_state cfg payload uuids now
    "auto_block" hdry (suspects_query events
      (now - payload.window_minutes * 60) now payload.min_unauth_401
      payload.limit_or_top_n) [] [] st 0
  have hmemA := auto_block_fold_dry_mem cfg payload uuids now
    "auto_block" hdry (suspects_query events
      (now - payload.window_minutes * 60) now payload.min_unauth_401
      payload.limit_or_top_n) [] [] st 0
  have hstateB := auto_block_fold_dry_state cfg payload uuids now
    "one_click" hdry (suspects_query events
      (now - payload.window_minutes * 60) now payload.min_unauth_401
      payload.limit_or_top_n) [] [] st 0
  have hmemB := auto_block_fold_dry_mem cfg payload uuids now
    "one_click" hdry (suspects_query events
      (now - payload.window_minutes * 60) now payload.min_unauth_401
      payload.limit_or_top_n) [] [] st 0
  rcases hxA : (suspects_query events (now - payload.window_minutes * 60)
      now payload.min_unauth_401 payload.limit_or_top_n).foldl
      (auto_block_step cfg payload uuids now "auto_block") ([], [], st, 0)
    with ⟨bA, skA, stA, iA⟩
  rcases hxB : (suspects_query events (now - payload.window_minutes * 60)
      now payload.min_unauth_401 payload.limit_or_top_n).foldl
      (auto_block_step cfg payload uuids now "one_click") ([], [], st, 0)
    with ⟨bB, skB, stB, iB⟩
  rw [hxA] at hstateA hmemA
  rw [hxB] at hstateB hmemB
  have hA : auto_block_from_suspects cfg payload uuids now events st
      = (Except.ok ⟨payload.dry_run, bA, skA⟩, stA) := by
    simp only [auto_block_from_suspects, henabled, Bool.not_true,
      Bool.false_eq_true, if_false]
    rw [hxA]
  have hB : block_top_suspects cfg payload uuids now events st
      = (Except.ok ⟨payload.dry_run, bB, skB⟩, stB) := by
    simp only [block_top_suspects, henabled, Bool.not_true,
      Bool.false_eq_true, if_false]
    rw [hxB]
  refine ⟨?_, ?_, ?_, ?_, ?_⟩
  · rw [hA]
    exact hstateA
  · rw [hB]
    exact hstateB
  · intro loads limit
    constructor
    · rw [hA]
      rw [show stA = st from hstateA]
    · rw [hB]
      rw [show stB = st from hstateB]
  · refine ⟨⟨payload.dry_run, bA, skA⟩, by rw [hA], hdry, ?_⟩
    intro s hs
    exact hmemA s hs
  · refine ⟨⟨payload.dry_run, bB, skB⟩, by rw [hB], hdry, ?_⟩
    intro s hs
    exact hmemB s hs

/-- Witness for C7: a non-localhost suspect (`9.9.9.9`, one 401 row at
threshold 1) in dry-run mode with auto-block enabled: the store comes back
unchanged and the suspect is reported under `blocked` with
`dry_run: true`. -/
theorem C7_dry_run_frame_witness :
    (auto_block_from_suspects cfgAuto payloadDryLocal uuidsDemo 600
      [⟨none, none, "GET", "/protected", 401, 1, 500, none, some "9.9.9.9",
        none⟩] RedisState.empty).2 = RedisState.empty ∧
    (∃ out, (auto_block_from_suspects cfgAuto payloadDryLocal uuidsDemo 600
        [⟨none, none, "GET", "/protected", 401, 1, 500, none,
          some "9.9.9.9", none⟩] RedisState.empty).1
        = Except.ok out ∧ out.dry_run = true ∧
      ∀ s ∈ suspects_query [⟨none, none, "GET", "/protected", 401, 1, 500,
          none, some "9.9.9.9", none⟩]
          ((600 : Int) - payloadDryLocal.window_minutes * 60) 600
          payloadDryLocal.min_unauth_401 payloadDryLocal.limit_or_top_n,
        (localhostGuarded payloadDryLocal cfgAuto s.1 = true →
          (s.1, "localhost_block_protection") ∈ out.skipped) ∧
        (localhostGuarded payloadDryLocal cfgAuto s.1 = false →
          ∃ e ∈ out.blocked, e.client_ip = s.1 ∧ e.dry_run = true)) :=
  let h := C7_dry_run_frame cfgAuto payloadDryLocal uuidsDemo 600
    [⟨none, none, "GET", "/protected", 401, 1, 500, none, some "9.9.9.9",
      none⟩] RedisState.empty rfl rfl
  ⟨h.1, h.2.2.2.1⟩

/-- Closed form of the classification loop: starting from any accumulator,
the loop appends exactly the active entries (keys present), the
recently-expired pairs (key absent, score within lookback), and the stale
members (key absent, score missing or below the lookback). -/
theorem blocks_report_classify_closed (loads : String → Option JVal)
    (st : RedisState) (since : Int) (ips : List String) :
    ∀ (a0 : List ReportActiveEntry) (e0 : List (String × Int))
      (s0 : List String),
      ips.foldl (blocks_report_step loads st since) (a0, e0, s0)
        = (a0 ++ (ips.filter (fun ip =>
              (st.get (BLOCK_IP_PREFIX ++ ip)).isSome)).map (fun ip =>
              report_active_entry loads st ip
                ((st.get (BLOCK_IP_PREFIX ++ ip)).getD "")),
           e0 ++ ips.filterMap (fun ip =>
              if (st.get (BLOCK_IP_PREFIX ++ ip)).isSome then none
              else match st.zscore ip with
                | some z => if since ≤ z then some (ip, z) else none
                | none => none),
           s0 ++ ips.filter (fun ip =>
              !(st.get (BLOCK_IP_PREFIX ++ ip)).isSome &&
              (match st.zscore ip with
               | some z => decide (z < since)
               | none => true))) := by
  induction ips with
  | nil =>
    intro a0 e0 s0
    simp
  | cons ip tl ih =>
    intro a0 e0 s0
    rw [List.foldl_cons]
    cases hraw : st.get (BLOCK_IP_PREFIX ++ ip) with
    | some raw_val =>
      have hstep : blocks_report_step loads st since (a0, e0, s0) ip
          = (a0 ++ [report_active_entry loads st ip raw_val], e0, s0) := by
        simp only [blocks_report_step]
        rw [hraw]
      rw [hstep, ih]
      simp [List.filter_cons, List.filterMap_cons, hraw]
    | none =>
      cases hz : st.zscore ip with
      | some z =>
        by_cases hle : since ≤ z
        · have hstep : blocks_report_step loads st since (a0, e0, s0) ip
              = (a0, e0 ++ [(ip, z)], s0) := by
            simp only [blocks_report_step, hraw, hz]
            rw [if_pos hle]
          rw [hstep, ih]
          simp [List.filter_cons, List.filterMap_cons, hraw, hz, hle,
            Int.not_lt.mpr hle]
        · have hstep : blocks_report_step loads st since (a0, e0, s0) ip
              = (a0, e0, s0 ++ [ip]) := by
            simp only [blocks_report_step, hraw, hz]
            rw [if_neg hle]
          rw [hstep, ih]
          simp [List.filter_cons, List.filterMap_cons, hraw, hz, hle,
            Int.not_le.mp hle]
      | none =>
        have hstep : blocks_report_step loads st since (a0, e0, s0) ip
            = (a0, e0, s0 ++ [ip]) := by
          simp only [blocks_report_step]
          rw [hraw, hz]
        rw [hstep, ih]
        simp [List.filter_cons, List.filterMap_cons, hraw, hz]

/-- Association-list lookup is unchanged by removing members other than the
looked-up key. -/
theorem find?_filter_not_contains {α : Type} (l : List (String × α))
    (members : List String) (m : String) (h : m ∉ members) :
    (l.filter (fun p => !members.contains p.1)).find? (fun p => p.1 == m)
      = l.find? (fun p => p.1 == m) := by
  induction l with
  | nil => rfl
  | cons a tl ih =>
    rw [List.filter_cons]
    by_cases hm : (a.1 == m) = true
    · have ha : a.1 = m := eq_of_beq hm
      have hc : members.contains a.1 = false := by
        rw [ha]
        exact Bool.eq_false_iff.mpr (fun hcc => h (by simpa using hcc))
      rw [hc, if_pos (show (!false) = true from rfl)]
      simp only [List.find?_cons, hm]
    · have hmf : (a.1 == m) = false := Bool.eq_false_iff.mpr hm
      cases hcont : members.contains a.1 with
      | false =>
        rw [if_pos (show (!false) = true from rfl)]
        simp only [List.find?_cons, hmf]
        exact ih
      | true =>
        rw [if_neg (show ¬((!true) = true) from by simp)]
        simp only [List.find?_cons, hmf]
        exact ih

/-- After `ZREM`, removed members have no score. -/
theorem zscore_after_zrem_mem (st : RedisState) (members : List String)
    (ip : String) (h : ip ∈ members) :
    ((st.zrem members).2).zscore ip = none := by
  have hnone : (st.zindex.filter (fun p => !members.contains p.1)).find?
      (fun p => p.1 == ip) = none := by
    rw [List.find?_eq_none]
    intro p hp hbeq
    have hq := (List.mem_filter.mp hp).2
    have hp1 : p.1 = ip := eq_of_beq hbeq
    rw [hp1] at hq
    have hco : members.contains ip = true := by simpa using h
    rw [hco] at hq
    simp at hq
  have hbridge : ((st.zrem members).2).zscore ip
      = ((st.zindex.filter (fun p => !members.contains p.1)).find?
          (fun p => p.1 == ip)).map (·.2) := rfl
  rw [hbridge, hnone]
  rfl

/-- After `ZREM`, every other member keeps its score. -/
theorem zscore_after_zrem_not_mem (st : RedisState) (members : List String)
    (m : String) (h : m ∉ members) :
    ((st.zrem members).2).zscore m = st.zscore m := by
  have hbridge : ((st.zrem members).2).zscore m
      = ((st.zindex.filter (fun p => !members.contains p.1)).find?
          (fun p => p.1 == m)).map (·.2) := rfl
  rw [hbridge, find?_filter_not_contains st.zindex members m h]
  rfl

/-- `blocks_report` in terms of the classification of the scanned IPs and
the stale `ZREM`. -/
theorem blocks_report_eq (loads : String → Option JVal)
    (lookback_minutes limit now : Int) (st : RedisState) :
    blocks_report loads lookback_minutes limit now st
      = (blocks_report_classify loads st (report_since lookback_minutes now)
           (report_scanned_ips lookback_minutes limit now st),
         if (blocks_report_classify loads st
              (report_since lookback_minutes now)
              (report_scanned_ips lookback_minutes limit now st)).2.2.isEmpty
         then st
         else (st.zrem (blocks_report_classify loads st
            (report_since lookback_minutes now)
            (report_scanned_ips lookback_minutes limit now st)).2.2).2) := by
  rcases hx : blocks_report_classify loads st
      (report_since lookback_minutes now)
      (report_scanned_ips lookback_minutes limit now st) with ⟨a, e, s⟩
  simp only [report_since, report_scanned_ips, RedisState.zrangebyscore]
    at hx
  simp only [blocks_report, RedisState.zrangebyscore, hx]

/--
Claim C8: in every blocks-report invocation, a scanned IP (fetched from the
`blk:index` range scan) is listed under `active` exactly when its backing
`blk:ip:` key is present, is listed under `expired_recently` exactly when
the key is absent but its index score is within the lookback window, and is
listed under `stale` otherwise; moreover every IP the report lists as
active had a live key in the state the report read, every stale member has
been removed from the index when the report returns, and no other index
member is touched.
-/
theorem C8_blocks_report_classification (loads : String → Option JVal)
    (lookback_minutes limit now : Int) (st : RedisState) :
    (∀ ip ∈ report_scanned_ips lookback_minutes limit now st,
      ((∃ en ∈ (blocks_report loads lookback_minutes limit now st).1.1,
          en.client_ip = ip) ↔
        (st.get (BLOCK_IP_PREFIX ++ ip)).isSome = true) ∧
      ((∃ z, (ip, z) ∈
          (blocks_report loads lookback_minutes limit now st).1.2.1) ↔
        ((st.get (BLOCK_IP_PREFIX ++ ip)).isSome = false ∧
         ∃ z, st.zscore ip = some z ∧
           report_since lookback_minutes now ≤ z)) ∧
      (ip ∈ (blocks_report loads lookback_minutes limit now st).1.2.2 ↔
        ((st.get (BLOCK_IP_PREFIX ++ ip)).isSome = false ∧
         ∀ z, st.zscore ip = some z →
           z < report_since lookback_minutes now))) ∧
    (∀ en ∈ (blocks_report loads lookback_minutes limit now st).1.1,
      (st.get (BLOCK_IP_PREFIX ++ en.client_ip)).isSome = true) ∧
    (∀ ip ∈ (blocks_report loads lookback_minutes limit now st).1.2.2,
      ((blocks_report loads lookback_minutes limit now st).2).zscore ip
        = none) ∧
    (∀ m, m ∉ (blocks_report loads lookback_minutes limit now st).1.2.2 →
      ((blocks_report loads lookback_minutes limit now st).2).zscore m
        = st.zscore m) := by
  have hrep := blocks_report_eq loads lookback_minutes limit now st
  rcases hcl : blocks_report_classify loads st
      (report_since lookback_minutes now)
      (report_scanned_ips lookback_minutes limit now st) with ⟨A, E, S⟩
  have hclosed : (A, E, S)
      = (((report_scanned_ips lookback_minutes limit now st).filter
            (fun ip => (st.get (BLOCK_IP_PREFIX ++ ip)).isSome)).map
            (fun ip => report_active_entry loads st ip
              ((st.get (BLOCK_IP_PREFIX ++ ip)).getD "")),
         (report_scanned_ips lookback_minutes limit now st).filterMap
            (fun ip =>
              if (st.get (BLOCK_IP_PREFIX ++ ip)).isSome then none
              else match st.zscore ip with
                | some z => if report_since lookback_minutes now ≤ z
                            then some (ip, z) else none
                | none => none),
         (report_scanned_ips lookback_minutes limit now st).filter
            (fun ip =>
              !(st.get (BLOCK_IP_PREFIX ++ ip)).isSome &&
              (match st.zscore ip with
               | some z => decide (z < report_since lookback_minutes now)
               | none => true))) := by
    rw [← hcl]
    have hc := blocks_report_classify_closed loads st
      (report_since lookback_minutes now)
      (report_scanned_ips lookback_minutes limit now st) [] [] []
    simpa [blocks_report_classify] using hc
  have hA := congrArg (fun t => t.1) hclosed
  have hE := congrArg (fun t => t.2.1) hclosed
  have hS := congrArg (fun t => t.2.2) hclosed
  simp only at hA hE hS
  have hact : (blocks_report loads lookback_minutes limit now st).1.1
      = A := by rw [hrep, hcl]
  have hexp : (blocks_report loads lookback_minutes limit now st).1.2.1
      = E := by rw [hrep, hcl]
  have hstale : (blocks_report loads lookback_minutes limit now st).1.2.2
      = S := by rw [hrep, hcl]
  have hst2 : (blocks_report loads lookback_minutes limit now st).2
      = if S.isEmpty then st else (st.zrem S).2 := by rw [hrep, hcl]
  refine ⟨?_, ?_, ?_, ?_⟩
  · intro ip hip
    refine ⟨?_, ?_, ?_⟩
    · constructor
      · rintro ⟨en, hen, hcip⟩
        rw [hact, hA] at hen
        obtain ⟨ip', hip', hfa⟩ := List.mem_map.mp hen
        have : en.client_ip = ip' := by rw [← hfa]; rfl
        rw [this] at hcip
        subst hcip
        exact (List.mem_filter.mp hip').2
      · intro hsome
        refine ⟨report_active_entry loads st ip
          ((st.get (BLOCK_IP_PREFIX ++ ip)).getD ""), ?_, rfl⟩
        rw [hact, hA]
        exact List.mem_map.mpr ⟨ip, List.mem_filter.mpr ⟨hip, hsome⟩, rfl⟩
    · constructor
      · rintro ⟨z, hz⟩
        rw [hexp, hE] at hz
        obtain ⟨ip', hip', hf⟩ := List.mem_filterMap.mp hz
        by_cases hs : (st.get (BLOCK_IP_PREFIX ++ ip')).isSome = true
        · rw [if_pos hs] at hf
          cases hf
        · rw [if_neg hs] at hf
          cases hzz : st.zscore ip' with
          | none =>
            rw [hzz] at hf
            exact absurd hf (by simp)
          | some w =>
            rw [hzz] at hf
            have hf2 : (if report_since lookback_minutes now ≤ w
                then some (ip', w) else none) = some (ip, z) := hf
            by_cases hle : report_since lookback_minutes now ≤ w
            · rw [if_pos hle] at hf2
              injection hf2 with hf'
              have h1 : ip' = ip := congrArg Prod.fst hf'
              have h2 : w = z := congrArg Prod.snd hf'
              subst h1
              subst h2
              exact ⟨Bool.eq_false_iff.mpr hs, w, hzz, hle⟩
            · rw [if_neg hle] at hf2
              cases hf2
      · rintro ⟨hnone, z, hzs, hle⟩
        refine ⟨z, ?_⟩
        rw [hexp, hE]
        refine List.mem_filterMap.mpr ⟨ip, hip, ?_⟩
        rw [if_neg (by rw [hnone]; simp), hzs]
        exact (show (if report_since lookback_minutes now ≤ z
          then some (ip, z) else none) = some (ip, z) by rw [if_pos hle])
    · rw [hstale, hS]
      constructor
      · intro hmem
        have hp := (List.mem_filter.mp hmem).2
        have h1 : (st.get (BLOCK_IP_PREFIX ++ ip)).isSome = false := by
          cases hx : (st.get (BLOCK_IP_PREFIX ++ ip)).isSome with
          | false => rfl
          | true => rw [hx] at hp; simp at hp
        refine ⟨h1, ?_⟩
        intro z hz
        rw [h1, hz] at hp
        simpa using hp
      · rintro ⟨hnone, hall⟩
        refine List.mem_filter.mpr ⟨hip, ?_⟩
        rw [hnone]
        cases hzz : st.zscore ip with
        | none => rfl
        | some z => simpa using hall z hzz
  · intro en hen
    rw [hact, hA] at hen
    obtain ⟨ip', hip', hfa⟩ := List.mem_map.mp hen
    have : en.client_ip = ip' := by rw [← hfa]; rfl
    rw [this]
    exact (List.mem_filter.mp hip').2
  · intro ip hip
    rw [hstale] at hip
    rw [hst2]
    have hne : ¬(S.isEmpty = true) := by
      intro hh
      rw [List.isEmpty_iff.mp hh] at hip
      cases hip
    rw [if_neg hne]
    exact zscore_after_zrem_mem st S ip hip
  · intro m hm
    rw [hstale] at hm
    rw [hst2]
    by_cases hSE : S.isEmpty = true
    · rw [if_pos hSE]
    · rw [if_neg hSE]
      exact zscore_after_zrem_not_mem st S m hm

/-- Witness for C8 on a two-member index at `now = 600`, lookback 1 minute:
`1.1.1.1` (key present) is reported active, `2.2.2.2` (key gone, score 560
inside the lookback) is reported expired-recently, and the index entry of
the active IP is untouched. -/
theorem C8_blocks_report_classification_witness :
    (∃ en ∈ (blocks_report (loadsTable []) 1 200 600 stReport).1.1,
        en.client_ip = "1.1.1.1") ∧
    (∃ z, ("2.2.2.2", z) ∈
        (blocks_report (loadsTable []) 1 200 600 stReport).1.2.1) ∧
    ((blocks_report (loadsTable []) 1 200 600 stReport).2).zscore "1.1.1.1"
      = stReport.zscore "1.1.1.1" :=
  let h := C8_blocks_report_classification (loadsTable []) 1 200 600 stReport
  ⟨((h.1 "1.1.1.1" (by decide)).1).mpr (by decide),
   ((h.1 "2.2.2.2" (by decide)).2.1).mpr
     ⟨by decide, 560, by decide, by decide⟩,
   h.2.2.2 "1.1.1.1" (by decide)⟩
